import Mathlib

/-!
Shallow embedding of the VmaReplay trace-replay engine
(src/VmaReplay/VmaReplay.cpp) and verification of the specification's
claims about it.

The engine parses a CSV-encoded trace of memory-allocator calls and
re-executes each record against a live target allocator.  Here the engine
is embedded as pure Lean functions; the external collaborators (the
target allocator and the message sink) are modelled as inputs (an
environment supplying success/failure outcomes and live handles) and
outputs (a list of emitted events: warnings, raw prints and allocator
calls).
-/

namespace VmaReplay

/-! ### Field conversions

`StrRange`-based conversions live in Common.h, which is not part of the
source under verification; they are modelled from the spec. -/

/-- Value of a decimal digit character, `none` for a non-digit. -/
def decDigit (c : Char) : Option Nat :=
  if '0' ≤ c ∧ c ≤ '9' then some (c.toNat - '0'.toNat) else none

/-- Value of a hexadecimal digit character, `none` for a non-digit. -/
def hexDigit (c : Char) : Option Nat :=
  if '0' ≤ c ∧ c ≤ '9' then some (c.toNat - '0'.toNat)
  else if 'a' ≤ c ∧ c ≤ 'f' then some (c.toNat - 'a'.toNat + 10)
  else if 'A' ≤ c ∧ c ≤ 'F' then some (c.toNat - 'A'.toNat + 10)
  else none

/-- Accumulate digits of the given base left to right. -/
def parseDigits (digit : Char → Option Nat) (base : Nat) (cs : List Char) : Option Nat :=
  cs.foldl (fun acc c => acc.bind fun v => (digit c).map fun d => v * base + d) (some 0)

/-- Modelled from the spec: `StrRangeToUint` of Common.h (not under src/).
"unsigned-integer: accepts decimal text; fails (and leaves the output
unmodified) on any non-digit, overflow, or empty field."  `width` is the
bit width of the destination unsigned type. -/
def strRangeToUint (width : Nat) (s : String) : Option Nat :=
  if s.data.isEmpty then none
  else match parseDigits decDigit 10 s.data with
    | none => none
    | some v => if v < 2 ^ width then some v else none

/-- Modelled from the spec: `StrRangeToPtr` of Common.h (not under src/).
"pointer/handle: accepts hexadecimal text (no 0x prefix assumed in the
on-disk format); fails otherwise; the value 0 is legal and meaningful." -/
def strRangeToPtr (s : String) : Option Nat :=
  if s.data.isEmpty then none
  else match parseDigits hexDigit 16 s.data with
    | none => none
    | some v => if v < 2 ^ 64 then some v else none

/-- Modelled from the spec: `StrRangeToBool` of Common.h (not under src/).
"boolean: accepts exactly 0/1 (or equivalent canonical tokens); fails
otherwise." -/
def strRangeToBool (s : String) : Option Bool :=
  if s = "0" then some false
  else if s = "1" then some true
  else none

/-! ### File version gate -/

/-- `ParseFileVersion`: `g_FileVersion = (major << 16) | minor` with
`major`, `minor : uint32_t`; the shift wraps modulo `2^32`. -/
def packFileVersion (major minor : Nat) : Nat :=
  ((major <<< 16) % 2 ^ 32) ||| minor

/-- `ValidateFileVersion`: extract `major = version >> 16`,
`minor = version & 0xFFFF` and accept exactly major 1, minor ≤ 2. -/
def validateFileVersion (version : Nat) : Bool :=
  version >>> 16 = 1 ∧ version &&& 0xFFFF ≤ 2

/-- `ProcessFile` verdict on the version line, once it has parsed as a
pair of 32-bit unsigned values: the load proceeds iff the packed version
validates (otherwise the whole run aborts with `RESULT_ERROR_FORMAT`). -/
def fileVersionAccepted (major minor : Nat) : Bool :=
  validateFileVersion (packFileVersion major minor)

/-! ### Statistics -/

/-- `VMA_FUNCTION`: the 19 operations with a per-operation call counter. -/
inductive VmaFunction
  | createPool
  | destroyPool
  | setAllocationUserData
  | createBuffer
  | destroyBuffer
  | createImage
  | destroyImage
  | freeMemory
  | createLostAllocation
  | allocateMemory
  | allocateMemoryForBuffer
  | allocateMemoryForImage
  | mapMemory
  | unmapMemory
  | flushAllocation
  | invalidateAllocation
  | touchAllocation
  | getAllocationInfo
  | makePoolAllocationsLost
  deriving DecidableEq, Repr

/-- `VMA_FUNCTION_NAMES`. -/
def vmaFunctionName : VmaFunction → String
  | .createPool => "vmaCreatePool"
  | .destroyPool => "vmaDestroyPool"
  | .setAllocationUserData => "vmaSetAllocationUserData"
  | .createBuffer => "vmaCreateBuffer"
  | .destroyBuffer => "vmaDestroyBuffer"
  | .createImage => "vmaCreateImage"
  | .destroyImage => "vmaDestroyImage"
  | .freeMemory => "vmaFreeMemory"
  | .createLostAllocation => "vmaCreateLostAllocation"
  | .allocateMemory => "vmaAllocateMemory"
  | .allocateMemoryForBuffer => "vmaAllocateMemoryForBuffer"
  | .allocateMemoryForImage => "vmaAllocateMemoryForImage"
  | .mapMemory => "vmaMapMemory"
  | .unmapMemory => "vmaUnmapMemory"
  | .flushAllocation => "vmaFlushAllocation"
  | .invalidateAllocation => "vmaInvalidateAllocation"
  | .touchAllocation => "vmaTouchAllocation"
  | .getAllocationInfo => "vmaGetAllocationInfo"
  | .makePoolAllocationsLost => "vmaMakePoolAllocationsLost"

/-- Vulkan flag constants used by the statistics classifiers. -/
def VK_BUFFER_USAGE_UNIFORM_TEXEL_BUFFER_BIT : Nat := 0x4
def VK_BUFFER_USAGE_STORAGE_TEXEL_BUFFER_BIT : Nat := 0x8
def VK_BUFFER_USAGE_UNIFORM_BUFFER_BIT : Nat := 0x10
def VK_BUFFER_USAGE_STORAGE_BUFFER_BIT : Nat := 0x20
def VK_BUFFER_USAGE_INDEX_BUFFER_BIT : Nat := 0x40
def VK_BUFFER_USAGE_VERTEX_BUFFER_BIT : Nat := 0x80
def VK_BUFFER_USAGE_INDIRECT_BUFFER_BIT : Nat := 0x100
def VK_IMAGE_USAGE_SAMPLED_BIT : Nat := 0x4
def VK_IMAGE_USAGE_COLOR_ATTACHMENT_BIT : Nat := 0x10
def VK_IMAGE_USAGE_DEPTH_STENCIL_ATTACHMENT_BIT : Nat := 0x20
def VK_IMAGE_USAGE_TRANSIENT_ATTACHMENT_BIT : Nat := 0x40
def VK_IMAGE_USAGE_INPUT_ATTACHMENT_BIT : Nat := 0x80
def VK_IMAGE_TILING_LINEAR : Nat := 1
def VMA_ALLOCATION_CREATE_DEDICATED_MEMORY_BIT : Nat := 0x1
def VMA_ALLOCATION_CREATE_USER_DATA_COPY_STRING_BIT : Nat := 0x20

/-- `Statistics::BufferUsageToClass`. -/
def bufferUsageToClass (usage : Nat) : Nat :=
  if usage &&& (VK_BUFFER_USAGE_INDIRECT_BUFFER_BIT |||
      VK_BUFFER_USAGE_VERTEX_BUFFER_BIT |||
      VK_BUFFER_USAGE_INDEX_BUFFER_BIT) ≠ 0 then 0
  else if usage &&& (VK_BUFFER_USAGE_STORAGE_BUFFER_BIT |||
      VK_BUFFER_USAGE_STORAGE_TEXEL_BUFFER_BIT) ≠ 0 then 1
  else if usage &&& (VK_BUFFER_USAGE_UNIFORM_BUFFER_BIT |||
      VK_BUFFER_USAGE_UNIFORM_TEXEL_BUFFER_BIT) ≠ 0 then 2
  else 3

/-- `Statistics::ImageUsageToClass`. -/
def imageUsageToClass (usage : Nat) : Nat :=
  if usage &&& VK_IMAGE_USAGE_DEPTH_STENCIL_ATTACHMENT_BIT ≠ 0 then 0
  else if usage &&& (VK_IMAGE_USAGE_INPUT_ATTACHMENT_BIT |||
      VK_IMAGE_USAGE_TRANSIENT_ATTACHMENT_BIT |||
      VK_IMAGE_USAGE_COLOR_ATTACHMENT_BIT) ≠ 0 then 1
  else if usage &&& VK_IMAGE_USAGE_SAMPLED_BIT ≠ 0 then 2
  else 3

/-- `class Statistics`: pure counters. -/
structure Statistics where
  functionCallCount : VmaFunction → Nat
  imageCreationCount : Nat → Nat
  linearImageCreationCount : Nat
  bufferCreationCount : Nat → Nat
  allocationCreationCount : Nat
  poolCreationCount : Nat

def Statistics.empty : Statistics :=
  { functionCallCount := fun _ => 0
    imageCreationCount := fun _ => 0
    linearImageCreationCount := 0
    bufferCreationCount := fun _ => 0
    allocationCreationCount := 0
    poolCreationCount := 0 }

/-- `Statistics::RegisterFunctionCall`. -/
def Statistics.registerFunctionCall (st : Statistics) (f : VmaFunction) : Statistics :=
  { st with functionCallCount :=
      fun g => if g = f then st.functionCallCount f + 1 else st.functionCallCount g }

/-- `Statistics::RegisterCreateImage`. -/
def Statistics.registerCreateImage (st : Statistics) (usage tiling : Nat) : Statistics :=
  let st1 :=
    if tiling = VK_IMAGE_TILING_LINEAR then
      { st with linearImageCreationCount := st.linearImageCreationCount + 1 }
    else
      { st with imageCreationCount :=
          fun c => if c = imageUsageToClass usage then
            st.imageCreationCount c + 1 else st.imageCreationCount c }
  { st1 with allocationCreationCount := st1.allocationCreationCount + 1 }

/-- `Statistics::RegisterCreateBuffer`. -/
def Statistics.registerCreateBuffer (st : Statistics) (usage : Nat) : Statistics :=
  let st1 := { st with bufferCreationCount :=
      fun c => if c = bufferUsageToClass usage then
        st.bufferCreationCount c + 1 else st.bufferCreationCount c }
  { st1 with allocationCreationCount := st1.allocationCreationCount + 1 }

/-- `Statistics::RegisterCreatePool`. -/
def Statistics.registerCreatePool (st : Statistics) : Statistics :=
  { st with poolCreationCount := st.poolCreationCount + 1 }

/-- `Statistics::RegisterCreateAllocation`. -/
def Statistics.registerCreateAllocation (st : Statistics) : Statistics :=
  { st with allocationCreationCount := st.allocationCreationCount + 1 }

/-- Sum of all 19 per-operation call counters. -/
def Statistics.totalFunctionCalls (st : Statistics) : Nat :=
  st.functionCallCount .createPool + st.functionCallCount .destroyPool +
  st.functionCallCount .setAllocationUserData + st.functionCallCount .createBuffer +
  st.functionCallCount .destroyBuffer + st.functionCallCount .createImage +
  st.functionCallCount .destroyImage + st.functionCallCount .freeMemory +
  st.functionCallCount .createLostAllocation + st.functionCallCount .allocateMemory +
  st.functionCallCount .allocateMemoryForBuffer + st.functionCallCount .allocateMemoryForImage +
  st.functionCallCount .mapMemory + st.functionCallCount .unmapMemory +
  st.functionCallCount .flushAllocation + st.functionCallCount .invalidateAllocation +
  st.functionCallCount .touchAllocation + st.functionCallCount .getAllocationInfo +
  st.functionCallCount .makePoolAllocationsLost

end VmaReplay

namespace VmaReplay

/-! ### Player state, environment, events -/

/-- `VERBOSITY` (MINIMUM = 0, DEFAULT = 1, MAXIMUM = 2). -/
inductive Verbosity
  | minimum
  | default
  | maximum
  deriving DecidableEq, Repr

def Verbosity.toNat : Verbosity → Nat
  | .minimum => 0
  | .default => 1
  | .maximum => 2

/-- `g_Verbosity < VERBOSITY::MAXIMUM`. -/
def Verbosity.ltMaximum (v : Verbosity) : Bool :=
  v.toNat < Verbosity.maximum.toNat

/-- The global configuration relevant to the replay engine
(`g_Verbosity`, `g_UserDataEnabled`). -/
structure Config where
  verbosity : Verbosity
  userDataEnabled : Bool

/-- Environment: the target allocator collaborator.  Per the spec
boundary, every call returns a success/failure outcome plus, on success,
a live handle; on failure the handle output is null (0). -/
structure Env where
  success : Bool
  livePool : Nat
  liveAllocation : Nat
  liveBuffer : Nat
  liveImage : Nat

/-- `Player::Pool` entry of the handle registry. -/
structure Pool where
  pool : Nat
  deriving DecidableEq, Repr

/-- `Player::Allocation` entry of the handle registry (0 = null handle). -/
structure Allocation where
  allocationFlags : Nat
  allocation : Nat
  buffer : Nat
  image : Nat
  deriving DecidableEq, Repr

/-- The user-data value passed to the target allocator: an opaque pointer
(0 = null) or a pointer to a copied string. -/
inductive UData
  | ptr (v : Nat)
  | str (content : String)
  deriving DecidableEq, Repr

/-- A call into the target allocator. -/
inductive AllocCall
  | setCurrentFrameIndex (idx : Nat)
  | createPool
  | destroyPool (pool : Nat)
  | setAllocationUserData (alloc : Nat) (u : UData)
  | createBuffer (u : UData)
  | destroyBuffer (buffer alloc : Nat)
  | createImage (u : UData)
  | destroyImage (image alloc : Nat)
  | freeMemory (alloc : Nat)
  | createLostAllocation
  | allocateMemory (u : UData)
  | mapMemory (alloc : Nat)
  | unmapMemory (alloc : Nat)
  | flushAllocation (alloc offset size : Nat)
  | invalidateAllocation (alloc offset size : Nat)
  | touchAllocation (alloc : Nat)
  | getAllocationInfo (alloc : Nat)
  | makePoolAllocationsLost (pool : Nat)
  deriving DecidableEq, Repr

/-- The kind of an anomaly message. -/
inductive WarnKind
  | tooFewColumns
  | incorrectThreadId
  | incorrectFrameIndex
  | unknownFunction
  | paramCount
  | invalidParams
  | poolNotFound
  | allocNotFound
  | allocIsNull
  | poolAlreadyExists
  | allocAlreadyExists
  | createFailedOrigSucceeded
  | createSucceededOrigFailed
  | createFailedOrigFailed
  | invalidUserData
  | allocateForBufferImageInexact
  | mapFailed
  deriving DecidableEq, Repr

/-- An observable effect of processing a line: a warning routed through
`IssueWarning` (with its shown/suppressed outcome), a message printed
directly without `IssueWarning`, or a target-allocator call. -/
inductive Event
  | warn (k : WarnKind) (shown : Bool)
  | rawMsg (k : WarnKind)
  | call (c : AllocCall)
  deriving DecidableEq, Repr

/-- Finite map keyed by 64-bit original handles (`std::unordered_map`). -/
def HMap (V : Type) := Nat → Option V

def HMap.empty {V : Type} : HMap V := fun _ => none

def HMap.insert {V : Type} (m : HMap V) (k : Nat) (v : V) : HMap V :=
  fun x => if x = k then some v else m x

def HMap.erase {V : Type} (m : HMap V) (k : Nat) : HMap V :=
  fun x => if x = k then none else m x

/-- `class Player`: the engine state mutated while replaying records. -/
structure PlayerState where
  warningCount : Nat
  allocateForBufferImageWarningIssued : Bool
  vmaFrameIndex : Nat
  pools : HMap Pool
  allocations : HMap Allocation
  threads : HMap Nat
  lastLineTimeStr : String
  stats : Statistics

def initialState : PlayerState :=
  { warningCount := 0
    allocateForBufferImageWarningIssued := false
    vmaFrameIndex := 0
    pools := HMap.empty
    allocations := HMap.empty
    threads := HMap.empty
    lastLineTimeStr := ""
    stats := Statistics.empty }

def FIRST_PARAM_INDEX : Nat := 4
def MAX_WARNINGS_TO_SHOW : Nat := 64

/-- Field `i` of the split record (`csvSplit.GetRange(i)`). -/
def getField (fields : List String) (i : Nat) : String :=
  fields.getD i ""

/-- The raw text from the start of field `i` to the end of the line
(used for string-mode user data, delimiters included). -/
def lineFrom (fields : List String) (i : Nat) : String :=
  String.intercalate "," (fields.drop i)

/-- `Player::IssueWarning`: increments the warning counter; returns
whether the message should be printed. -/
def issueWarning (cfg : Config) (s : PlayerState) : PlayerState × Bool :=
  if cfg.verbosity.ltMaximum then
    ({ s with warningCount := s.warningCount + 1 },
     decide (s.warningCount < MAX_WARNINGS_TO_SHOW))
  else
    ({ s with warningCount := s.warningCount + 1 }, true)

/-- An `IssueWarning`-guarded printf: one warning event recording whether
it was shown. -/
def warn (cfg : Config) (s : PlayerState) (k : WarnKind) : PlayerState × List Event :=
  match issueWarning cfg s with
  | (s1, shown) => (s1, [Event.warn k shown])

/-- `Player::~Player` teardown report: the count of warnings not shown,
if any (printed once, only below maximum verbosity). -/
def teardownSuppressedWarnings (cfg : Config) (s : PlayerState) : Option Nat :=
  if cfg.verbosity.ltMaximum ∧ s.warningCount > MAX_WARNINGS_TO_SHOW then
    some (s.warningCount - MAX_WARNINGS_TO_SHOW)
  else none

/-- `Player::Destroy`: dispatch to the destruction call matching the
resource kind recorded in the allocation entry. -/
def destroyCall (a : Allocation) : AllocCall :=
  if a.buffer ≠ 0 then .destroyBuffer a.buffer a.allocation
  else if a.image ≠ 0 then .destroyImage a.image a.allocation
  else .freeMemory a.allocation

/-- `Player::FindPool`: null original means "no pool"; a nonzero original
that cannot be resolved warns and falls back to the null pool. -/
def findPool (cfg : Config) (s : PlayerState) (origPool : Nat) :
    PlayerState × List Event × Nat :=
  if origPool ≠ 0 then
    match s.pools origPool with
    | some p => (s, [], p.pool)
    | none =>
      match warn cfg s .poolNotFound with
      | (s1, evs) => (s1, evs, 0)
  else (s, [], 0)

/-- `Player::AddAllocation`: the divergence reconciliation for
allocation-creating operations. -/
def addAllocation (cfg : Config) (s : PlayerState) (origPtr : Nat) (res : Bool)
    (allocDesc : Allocation) : PlayerState × List Event :=
  if origPtr ≠ 0 then
    let r1 : PlayerState × List Event :=
      if res then (s, []) else warn cfg s .createFailedOrigSucceeded
    match r1 with
    | (s1, evs1) =>
      let r2 : PlayerState × List Event :=
        match s1.allocations origPtr with
        | some _ => warn cfg s1 .allocAlreadyExists
        | none => (s1, [])
      match r2 with
      | (s2, evs2) =>
        ({ s2 with allocations := s2.allocations.insert origPtr allocDesc },
         evs1 ++ evs2)
  else
    if res then
      match warn cfg s .createSucceededOrigFailed with
      | (s1, evs1) => (s1, evs1 ++ [Event.call (destroyCall allocDesc)])
    else
      warn cfg s .createFailedOrigFailed

/-- The divergence reconciliation for pool creation, inlined in
`Player::ExecuteCreatePool` (lines 1162-1211). -/
def reconcilePool (cfg : Config) (s : PlayerState) (origPtr : Nat) (res : Bool)
    (poolDesc : Pool) : PlayerState × List Event :=
  if origPtr ≠ 0 then
    let r1 : PlayerState × List Event :=
      if res then (s, []) else warn cfg s .createFailedOrigSucceeded
    match r1 with
    | (s1, evs1) =>
      let r2 : PlayerState × List Event :=
        match s1.pools origPtr with
        | some _ => warn cfg s1 .poolAlreadyExists
        | none => (s1, [])
      match r2 with
      | (s2, evs2) =>
        ({ s2 with pools := s2.pools.insert origPtr poolDesc }, evs1 ++ evs2)
  else
    if res then
      match warn cfg s .createSucceededOrigFailed with
      | (s1, evs1) => (s1, evs1 ++ [Event.call (.destroyPool poolDesc.pool)])
    else
      warn cfg s .createFailedOrigFailed

/-- `Player::ValidateFunctionParameterCount`. -/
def validateFunctionParameterCount (cfg : Config) (s : PlayerState)
    (fieldCount expectedParamCount : Nat) (lastUnbound : Bool) :
    PlayerState × List Event × Bool :=
  let ok : Bool :=
    if lastUnbound then
      decide (FIRST_PARAM_INDEX + expectedParamCount - 1 ≤ fieldCount)
    else
      decide (fieldCount = FIRST_PARAM_INDEX + expectedParamCount)
  if ok then (s, [], true)
  else
    match warn cfg s .paramCount with
    | (s1, evs) => (s1, evs, false)

/-- `Player::PrepareUserData`: null when the feature is disabled; a
copied string when the creation flags request string semantics; otherwise
a parsed hexadecimal pointer, falling back to null with a warning. -/
def prepareUserData (cfg : Config) (s : PlayerState) (allocCreateFlags : Nat)
    (userDataColumn restOfLine : String) : PlayerState × List Event × UData × Bool :=
  if cfg.userDataEnabled = false then (s, [], .ptr 0, true)
  else if allocCreateFlags &&& VMA_ALLOCATION_CREATE_USER_DATA_COPY_STRING_BIT ≠ 0 then
    (s, [], .str restOfLine, true)
  else
    match strRangeToPtr userDataColumn with
    | some v => (s, [], .ptr v, true)
    | none =>
      match warn cfg s .invalidUserData with
      | (s1, evs) => (s1, evs, .ptr 0, false)

end VmaReplay

namespace VmaReplay

/-! ### Operation handlers -/

inductive ObjectType
  | buffer
  | image
  deriving DecidableEq, Repr

/-- The parameter-parse chain of `Player::ExecuteCreatePool` (the C++
short-circuiting conjunction of conversions; yields the original pool
handle). -/
def parseCreatePoolParams (fields : List String) : Option Nat :=
  match strRangeToUint 32 (getField fields FIRST_PARAM_INDEX) with
  | none => none
  | some _ =>
  match strRangeToUint 32 (getField fields (FIRST_PARAM_INDEX + 1)) with
  | none => none
  | some _ =>
  match strRangeToUint 64 (getField fields (FIRST_PARAM_INDEX + 2)) with
  | none => none
  | some _ =>
  match strRangeToUint 64 (getField fields (FIRST_PARAM_INDEX + 3)) with
  | none => none
  | some _ =>
  match strRangeToUint 64 (getField fields (FIRST_PARAM_INDEX + 4)) with
  | none => none
  | some _ =>
  match strRangeToUint 32 (getField fields (FIRST_PARAM_INDEX + 5)) with
  | none => none
  | some _ =>
  match strRangeToPtr (getField fields (FIRST_PARAM_INDEX + 6)) with
  | none => none
  | some origPtr =>
  some origPtr

/-- The parameter-parse chain of `Player::ExecuteCreateBuffer`: yields
(buffer usage, allocation-create flags, original pool, original ptr). -/
def parseCreateBufferParams (fields : List String) :
    Option (Nat × Nat × Nat × Nat) :=
  match strRangeToUint 32 (getField fields FIRST_PARAM_INDEX) with
  | none => none
  | some _ =>
  match strRangeToUint 64 (getField fields (FIRST_PARAM_INDEX + 1)) with
  | none => none
  | some _ =>
  match strRangeToUint 32 (getField fields (FIRST_PARAM_INDEX + 2)) with
  | none => none
  | some bufUsage =>
  match strRangeToUint 32 (getField fields (FIRST_PARAM_INDEX + 3)) with
  | none => none
  | some _ =>
  match strRangeToUint 32 (getField fields (FIRST_PARAM_INDEX + 4)) with
  | none => none
  | some acFlags =>
  match strRangeToUint 32 (getField fields (FIRST_PARAM_INDEX + 5)) with
  | none => none
  | some _ =>
  match strRangeToUint 32 (getField fields (FIRST_PARAM_INDEX + 6)) with
  | none => none
  | some _ =>
  match strRangeToUint 32 (getField fields (FIRST_PARAM_INDEX + 7)) with
  | none => none
  | some _ =>
  match strRangeToUint 32 (getField fields (FIRST_PARAM_INDEX + 8)) with
  | none => none
  | some _ =>
  match strRangeToPtr (getField fields (FIRST_PARAM_INDEX + 9)) with
  | none => none
  | some origPool =>
  match strRangeToPtr (getField fields (FIRST_PARAM_INDEX + 10)) with
  | none => none
  | some origPtr =>
  some (bufUsage, acFlags, origPool, origPtr)

/-- The parameter-parse chain of `Player::ExecuteCreateImage`: yields
(tiling, image usage, allocation-create flags, original pool, original
ptr). -/
def parseCreateImageParams (fields : List String) :
    Option (Nat × Nat × Nat × Nat × Nat) :=
  match strRangeToUint 32 (getField fields FIRST_PARAM_INDEX) with
  | none => none
  | some _ =>
  match strRangeToUint 32 (getField fields (FIRST_PARAM_INDEX + 1)) with
  | none => none
  | some _ =>
  match strRangeToUint 32 (getField fields (FIRST_PARAM_INDEX + 2)) with
  | none => none
  | some _ =>
  match strRangeToUint 32 (getField fields (FIRST_PARAM_INDEX + 3)) with
  | none => none
  | some _ =>
  match strRangeToUint 32 (getField fields (FIRST_PARAM_INDEX + 4)) with
  | none => none
  | some _ =>
  match strRangeToUint 32 (getField fields (FIRST_PARAM_INDEX + 5)) with
  | none => none
  | some _ =>
  match strRangeToUint 32 (getField fields (FIRST_PARAM_INDEX + 6)) with
  | none => none
  | some _ =>
  match strRangeToUint 32 (getField fields (FIRST_PARAM_INDEX + 7)) with
  | none => none
  | some _ =>
  match strRangeToUint 32 (getField fields (FIRST_PARAM_INDEX + 8)) with
  | none => none
  | some _ =>
  match strRangeToUint 32 (getField fields (FIRST_PARAM_INDEX + 9)) with
  | none => none
  | some tiling =>
  match strRangeToUint 32 (getField fields (FIRST_PARAM_INDEX + 10)) with
  | none => none
  | some imgUsage =>
  match strRangeToUint 32 (getField fields (FIRST_PARAM_INDEX + 11)) with
  | none => none
  | some _ =>
  match strRangeToUint 32 (getField fields (FIRST_PARAM_INDEX + 12)) with
  | none => none
  | some _ =>
  match strRangeToUint 32 (getField fields (FIRST_PARAM_INDEX + 13)) with
  | none => none
  | some acFlags =>
  match strRangeToUint 32 (getField fields (FIRST_PARAM_INDEX + 14)) with
  | none => none
  | some _ =>
  match strRangeToUint 32 (getField fields (FIRST_PARAM_INDEX + 15)) with
  | none => none
  | some _ =>
  match strRangeToUint 32 (getField fields (FIRST_PARAM_INDEX + 16)) with
  | none => none
  | some _ =>
  match strRangeToUint 32 (getField fields (FIRST_PARAM_INDEX + 17)) with
  | none => none
  | some _ =>
  match strRangeToPtr (getField fields (FIRST_PARAM_INDEX + 18)) with
  | none => none
  | some origPool =>
  match strRangeToPtr (getField fields (FIRST_PARAM_INDEX + 19)) with
  | none => none
  | some origPtr =>
  some (tiling, imgUsage, acFlags, origPool, origPtr)

/-- The parameter-parse chain of `Player::ExecuteAllocateMemory`: yields
(allocation-create flags, original pool, original ptr). -/
def parseAllocateMemoryParams (fields : List String) :
    Option (Nat × Nat × Nat) :=
  match strRangeToUint 64 (getField fields FIRST_PARAM_INDEX) with
  | none => none
  | some _ =>
  match strRangeToUint 64 (getField fields (FIRST_PARAM_INDEX + 1)) with
  | none => none
  | some _ =>
  match strRangeToUint 32 (getField fields (FIRST_PARAM_INDEX + 2)) with
  | none => none
  | some _ =>
  match strRangeToUint 32 (getField fields (FIRST_PARAM_INDEX + 3)) with
  | none => none
  | some acFlags =>
  match strRangeToUint 32 (getField fields (FIRST_PARAM_INDEX + 4)) with
  | none => none
  | some _ =>
  match strRangeToUint 32 (getField fields (FIRST_PARAM_INDEX + 5)) with
  | none => none
  | some _ =>
  match strRangeToUint 32 (getField fields (FIRST_PARAM_INDEX + 6)) with
  | none => none
  | some _ =>
  match strRangeToUint 32 (getField fields (FIRST_PARAM_INDEX + 7)) with
  | none => none
  | some _ =>
  match strRangeToPtr (getField fields (FIRST_PARAM_INDEX + 8)) with
  | none => none
  | some origPool =>
  match strRangeToPtr (getField fields (FIRST_PARAM_INDEX + 9)) with
  | none => none
  | some origPtr =>
  some (acFlags, origPool, origPtr)

/-- The parameter-parse chain of
`Player::ExecuteAllocateMemoryForBufferOrImage`: yields (allocation-create
flags, requires-dedicated, prefers-dedicated, original pool, original
ptr). -/
def parseAllocateForParams (fields : List String) :
    Option (Nat × Bool × Bool × Nat × Nat) :=
  match strRangeToUint 64 (getField fields FIRST_PARAM_INDEX) with
  | none => none
  | some _ =>
  match strRangeToUint 64 (getField fields (FIRST_PARAM_INDEX + 1)) with
  | none => none
  | some _ =>
  match strRangeToUint 32 (getField fields (FIRST_PARAM_INDEX + 2)) with
  | none => none
  | some _ =>
  match strRangeToUint 32 (getField fields (FIRST_PARAM_INDEX + 3)) with
  | none => none
  | some acFlags0 =>
  match strRangeToBool (getField fields (FIRST_PARAM_INDEX + 4)) with
  | none => none
  | some requiresDedicated =>
  match strRangeToBool (getField fields (FIRST_PARAM_INDEX + 5)) with
  | none => none
  | some prefersDedicated =>
  match strRangeToUint 32 (getField fields (FIRST_PARAM_INDEX + 6)) with
  | none => none
  | some _ =>
  match strRangeToUint 32 (getField fields (FIRST_PARAM_INDEX + 7)) with
  | none => none
  | some _ =>
  match strRangeToUint 32 (getField fields (FIRST_PARAM_INDEX + 8)) with
  | none => none
  | some _ =>
  match strRangeToUint 32 (getField fields (FIRST_PARAM_INDEX + 9)) with
  | none => none
  | some _ =>
  match strRangeToPtr (getField fields (FIRST_PARAM_INDEX + 10)) with
  | none => none
  | some origPool =>
  match strRangeToPtr (getField fields (FIRST_PARAM_INDEX + 11)) with
  | none => none
  | some origPtr =>
  some (acFlags0, requiresDedicated, prefersDedicated, origPool, origPtr)

/-- The parameter-parse chain shared by
`Player::ExecuteFlushAllocation` and `Player::ExecuteInvalidateAllocation`:
yields (original ptr, offset, size). -/
def parseAllocationRangeParams (fields : List String) :
    Option (Nat × Nat × Nat) :=
  match strRangeToPtr (getField fields FIRST_PARAM_INDEX) with
  | none => none
  | some origPtr =>
  match strRangeToUint 64 (getField fields (FIRST_PARAM_INDEX + 1)) with
  | none => none
  | some offset =>
  match strRangeToUint 64 (getField fields (FIRST_PARAM_INDEX + 2)) with
  | none => none
  | some size =>
  some (origPtr, offset, size)

/-- `Player::ExecuteCreatePool`. -/
def executeCreatePool (cfg : Config) (env : Env) (s : PlayerState)
    (fields : List String) : PlayerState × List Event :=
  let s := { s with stats := s.stats.registerFunctionCall .createPool }
  match validateFunctionParameterCount cfg s fields.length 7 false with
  | (s, evs0, ok) =>
    if ok then
      match parseCreatePoolParams fields with
      | some origPtr =>
        let s := { s with stats := s.stats.registerCreatePool }
        let res := env.success
        let poolDesc : Pool := { pool := if res then env.livePool else 0 }
        match reconcilePool cfg s origPtr res poolDesc with
        | (s, evs1) => (s, evs0 ++ [Event.call .createPool] ++ evs1)
      | none =>
        match warn cfg s .invalidParams with
        | (s, evs1) => (s, evs0 ++ evs1)
    else (s, evs0)

/-- `Player::ExecuteDestroyPool`. -/
def executeDestroyPool (cfg : Config) (env : Env) (s : PlayerState)
    (fields : List String) : PlayerState × List Event :=
  let s := { s with stats := s.stats.registerFunctionCall .destroyPool }
  match validateFunctionParameterCount cfg s fields.length 1 false with
  | (s, evs0, ok) =>
    if ok then
      match strRangeToPtr (getField fields FIRST_PARAM_INDEX) with
      | some origPtr =>
        if origPtr ≠ 0 then
          match s.pools origPtr with
          | some p =>
            ({ s with pools := s.pools.erase origPtr },
             evs0 ++ [Event.call (.destroyPool p.pool)])
          | none =>
            match warn cfg s .poolNotFound with
            | (s, evs1) => (s, evs0 ++ evs1)
        else (s, evs0)
      | none =>
        match warn cfg s .invalidParams with
        | (s, evs1) => (s, evs0 ++ evs1)
    else (s, evs0)

/-- `Player::ExecuteSetAllocationUserData`.  Note: when the user-data
feature is disabled the handler returns right after registering the call,
making no allocator call and not even validating arity. -/
def executeSetAllocationUserData (cfg : Config) (env : Env) (s : PlayerState)
    (fields : List String) : PlayerState × List Event :=
  let s := { s with stats := s.stats.registerFunctionCall .setAllocationUserData }
  if cfg.userDataEnabled = false then (s, [])
  else
    match validateFunctionParameterCount cfg s fields.length 2 true with
    | (s, evs0, ok) =>
      if ok then
        match strRangeToPtr (getField fields FIRST_PARAM_INDEX) with
        | some origPtr =>
          match s.allocations origPtr with
          | some a =>
            match (if FIRST_PARAM_INDEX + 1 < fields.length then
                prepareUserData cfg s a.allocationFlags
                  (getField fields (FIRST_PARAM_INDEX + 1))
                  (lineFrom fields (FIRST_PARAM_INDEX + 1))
              else (s, [], .ptr 0, true)) with
            | (s, evs1, u, _) =>
              (s, evs0 ++ evs1 ++ [Event.call (.setAllocationUserData a.allocation u)])
          | none =>
            match warn cfg s .allocNotFound with
            | (s, evs1) => (s, evs0 ++ evs1)
        | none =>
          match warn cfg s .invalidParams with
          | (s, evs1) => (s, evs0 ++ evs1)
      else (s, evs0)

/-- `Player::ExecuteCreateBuffer`. -/
def executeCreateBuffer (cfg : Config) (env : Env) (s : PlayerState)
    (fields : List String) : PlayerState × List Event :=
  let s := { s with stats := s.stats.registerFunctionCall .createBuffer }
  match validateFunctionParameterCount cfg s fields.length 12 true with
  | (s, evs0, ok) =>
    if ok then
      match parseCreateBufferParams fields with
      | some (bufUsage, acFlags, origPool, origPtr) =>
        match findPool cfg s origPool with
        | (s, evs1, _) =>
          match (if FIRST_PARAM_INDEX + 11 < fields.length then
              prepareUserData cfg s acFlags
                (getField fields (FIRST_PARAM_INDEX + 11))
                (lineFrom fields (FIRST_PARAM_INDEX + 11))
            else (s, [], .ptr 0, true)) with
          | (s, evs2, u, _) =>
            let s := { s with stats := s.stats.registerCreateBuffer bufUsage }
            let res := env.success
            let allocDesc : Allocation :=
              { allocationFlags := acFlags
                allocation := if res then env.liveAllocation else 0
                buffer := if res then env.liveBuffer else 0
                image := 0 }
            match addAllocation cfg s origPtr res allocDesc with
            | (s, evs3) =>
              (s, evs0 ++ evs1 ++ evs2 ++ [Event.call (.createBuffer u)] ++ evs3)
      | none =>
        match warn cfg s .invalidParams with
        | (s, evs1) => (s, evs0 ++ evs1)
    else (s, evs0)

/-- `Player::DestroyAllocation`: the shared destruction path for
destroy-buffer, destroy-image and free-memory records. -/
def destroyAllocation (cfg : Config) (env : Env) (s : PlayerState)
    (fields : List String) : PlayerState × List Event :=
  match validateFunctionParameterCount cfg s fields.length 1 false with
  | (s, evs0, ok) =>
    if ok then
      match strRangeToPtr (getField fields FIRST_PARAM_INDEX) with
      | some origAllocPtr =>
        if origAllocPtr ≠ 0 then
          match s.allocations origAllocPtr with
          | some a =>
            ({ s with allocations := s.allocations.erase origAllocPtr },
             evs0 ++ [Event.call (destroyCall a)])
          | none =>
            match warn cfg s .allocNotFound with
            | (s, evs1) => (s, evs0 ++ evs1)
        else (s, evs0)
      | none =>
        match warn cfg s .invalidParams with
        | (s, evs1) => (s, evs0 ++ evs1)
    else (s, evs0)

/-- `Player::ExecuteDestroyBuffer`. -/
def executeDestroyBuffer (cfg : Config) (env : Env) (s : PlayerState)
    (fields : List String) : PlayerState × List Event :=
  destroyAllocation cfg env
    { s with stats := s.stats.registerFunctionCall .destroyBuffer } fields

/-- `Player::ExecuteDestroyImage`. -/
def executeDestroyImage (cfg : Config) (env : Env) (s : PlayerState)
    (fields : List String) : PlayerState × List Event :=
  destroyAllocation cfg env
    { s with stats := s.stats.registerFunctionCall .destroyImage } fields

/-- `Player::ExecuteFreeMemory`. -/
def executeFreeMemory (cfg : Config) (env : Env) (s : PlayerState)
    (fields : List String) : PlayerState × List Event :=
  destroyAllocation cfg env
    { s with stats := s.stats.registerFunctionCall .freeMemory } fields

/-- `Player::ExecuteCreateImage`. -/
def executeCreateImage (cfg : Config) (env : Env) (s : PlayerState)
    (fields : List String) : PlayerState × List Event :=
  let s := { s with stats := s.stats.registerFunctionCall .createImage }
  match validateFunctionParameterCount cfg s fields.length 21 true with
  | (s, evs0, ok) =>
    if ok then
      match parseCreateImageParams fields with
      | some (tiling, imgUsage, acFlags, origPool, origPtr) =>
        match findPool cfg s origPool with
        | (s, evs1, _) =>
          match (if FIRST_PARAM_INDEX + 20 < fields.length then
              prepareUserData cfg s acFlags
                (getField fields (FIRST_PARAM_INDEX + 20))
                (lineFrom fields (FIRST_PARAM_INDEX + 20))
            else (s, [], .ptr 0, true)) with
          | (s, evs2, u, _) =>
            let s := { s with stats := s.stats.registerCreateImage imgUsage tiling }
            let res := env.success
            let allocDesc : Allocation :=
              { allocationFlags := acFlags
                allocation := if res then env.liveAllocation else 0
                buffer := 0
                image := if res then env.liveImage else 0 }
            match addAllocation cfg s origPtr res allocDesc with
            | (s, evs3) =>
              (s, evs0 ++ evs1 ++ evs2 ++ [Event.call (.createImage u)] ++ evs3)
      | none =>
        match warn cfg s .invalidParams with
        | (s, evs1) => (s, evs0 ++ evs1)
    else (s, evs0)

/-- `Player::ExecuteCreateLostAllocation`.  The creation call returns no
result code; the reconciliation treats it as always succeeding. -/
def executeCreateLostAllocation (cfg : Config) (env : Env) (s : PlayerState)
    (fields : List String) : PlayerState × List Event :=
  let s := { s with stats := s.stats.registerFunctionCall .createLostAllocation }
  match validateFunctionParameterCount cfg s fields.length 1 false with
  | (s, evs0, ok) =>
    if ok then
      match strRangeToPtr (getField fields FIRST_PARAM_INDEX) with
      | some origPtr =>
        let allocDesc : Allocation :=
          { allocationFlags := 0, allocation := env.liveAllocation,
            buffer := 0, image := 0 }
        let s := { s with stats := s.stats.registerCreateAllocation }
        match addAllocation cfg s origPtr true allocDesc with
        | (s, evs1) =>
          (s, evs0 ++ [Event.call .createLostAllocation] ++ evs1)
      | none =>
        match warn cfg s .invalidParams with
        | (s, evs1) => (s, evs0 ++ evs1)
    else (s, evs0)

end VmaReplay

namespace VmaReplay

/-- `Player::ExecuteAllocateMemory`. -/
def executeAllocateMemory (cfg : Config) (env : Env) (s : PlayerState)
    (fields : List String) : PlayerState × List Event :=
  let s := { s with stats := s.stats.registerFunctionCall .allocateMemory }
  match validateFunctionParameterCount cfg s fields.length 11 true with
  | (s, evs0, ok) =>
    if ok then
      match parseAllocateMemoryParams fields with
      | some (acFlags, origPool, origPtr) =>
        match findPool cfg s origPool with
        | (s, evs1, _) =>
          match (if FIRST_PARAM_INDEX + 10 < fields.length then
              prepareUserData cfg s acFlags
                (getField fields (FIRST_PARAM_INDEX + 10))
                (lineFrom fields (FIRST_PARAM_INDEX + 10))
            else (s, [], .ptr 0, true)) with
          | (s, evs2, u, _) =>
            let s := { s with stats := s.stats.registerCreateAllocation }
            let res := env.success
            let allocDesc : Allocation :=
              { allocationFlags := acFlags
                allocation := if res then env.liveAllocation else 0
                buffer := 0
                image := 0 }
            match addAllocation cfg s origPtr res allocDesc with
            | (s, evs3) =>
              (s, evs0 ++ evs1 ++ evs2 ++ [Event.call (.allocateMemory u)] ++ evs3)
      | none =>
        match warn cfg s .invalidParams with
        | (s, evs1) => (s, evs0 ++ evs1)
    else (s, evs0)

/-- `Player::ExecuteAllocateMemoryForBufferOrImage`: an inexact replay.
A generic `vmaAllocateMemory` call substitutes for the original, forcing
dedicated-allocation semantics when the recording asked for it, with a
one-time advisory warning per run. -/
def executeAllocateMemoryForBufferOrImage (cfg : Config) (env : Env)
    (s : PlayerState) (fields : List String) (objType : ObjectType) :
    PlayerState × List Event :=
  let s :=
    match objType with
    | .buffer => { s with stats := s.stats.registerFunctionCall .allocateMemoryForBuffer }
    | .image => { s with stats := s.stats.registerFunctionCall .allocateMemoryForImage }
  match validateFunctionParameterCount cfg s fields.length 13 true with
  | (s, evs0, ok) =>
    if ok then
      match parseAllocateForParams fields with
      | some (acFlags0, requiresDedicated, prefersDedicated, origPool, origPtr) =>
        match findPool cfg s origPool with
        | (s, evs1, _) =>
          match (if FIRST_PARAM_INDEX + 12 < fields.length then
              prepareUserData cfg s acFlags0
                (getField fields (FIRST_PARAM_INDEX + 12))
                (lineFrom fields (FIRST_PARAM_INDEX + 12))
            else (s, [], .ptr 0, true)) with
          | (s, evs2, u, _) =>
            let acFlags :=
              if requiresDedicated ∨ prefersDedicated then
                acFlags0 ||| VMA_ALLOCATION_CREATE_DEDICATED_MEMORY_BIT
              else acFlags0
            match (if s.allocateForBufferImageWarningIssued = false then
                match warn cfg s .allocateForBufferImageInexact with
                | (s1, evs) =>
                  ({ s1 with allocateForBufferImageWarningIssued := true }, evs)
              else (s, [])) with
            | (s, evs3) =>
              let s := { s with stats := s.stats.registerCreateAllocation }
              let res := env.success
              let allocDesc : Allocation :=
                { allocationFlags := acFlags
                  allocation := if res then env.liveAllocation else 0
                  buffer := 0
                  image := 0 }
              match addAllocation cfg s origPtr res allocDesc with
              | (s, evs4) =>
                (s, evs0 ++ evs1 ++ evs2 ++ evs3 ++
                    [Event.call (.allocateMemory u)] ++ evs4)
      | none =>
        match warn cfg s .invalidParams with
        | (s, evs1) => (s, evs0 ++ evs1)
    else (s, evs0)

/-- `Player::ExecuteMapMemory`.  A live `vmaMapMemory` failure is printed
directly, without going through `IssueWarning`. -/
def executeMapMemory (cfg : Config) (env : Env) (s : PlayerState)
    (fields : List String) : PlayerState × List Event :=
  let s := { s with stats := s.stats.registerFunctionCall .mapMemory }
  match validateFunctionParameterCount cfg s fields.length 1 false with
  | (s, evs0, ok) =>
    if ok then
      match strRangeToPtr (getField fields FIRST_PARAM_INDEX) with
      | some origPtr =>
        if origPtr ≠ 0 then
          match s.allocations origPtr with
          | some a =>
            if a.allocation ≠ 0 then
              let res := env.success
              if res then (s, evs0 ++ [Event.call (.mapMemory a.allocation)])
              else
                (s, evs0 ++ [Event.call (.mapMemory a.allocation),
                             Event.rawMsg .mapFailed])
            else
              match warn cfg s .allocIsNull with
              | (s, evs1) => (s, evs0 ++ evs1)
          | none =>
            match warn cfg s .allocNotFound with
            | (s, evs1) => (s, evs0 ++ evs1)
        else (s, evs0)
      | none =>
        match warn cfg s .invalidParams with
        | (s, evs1) => (s, evs0 ++ evs1)
    else (s, evs0)

/-- `Player::ExecuteUnmapMemory`. -/
def executeUnmapMemory (cfg : Config) (env : Env) (s : PlayerState)
    (fields : List String) : PlayerState × List Event :=
  let s := { s with stats := s.stats.registerFunctionCall .unmapMemory }
  match validateFunctionParameterCount cfg s fields.length 1 false with
  | (s, evs0, ok) =>
    if ok then
      match strRangeToPtr (getField fields FIRST_PARAM_INDEX) with
      | some origPtr =>
        if origPtr ≠ 0 then
          match s.allocations origPtr with
          | some a =>
            if a.allocation ≠ 0 then
              (s, evs0 ++ [Event.call (.unmapMemory a.allocation)])
            else
              match warn cfg s .allocIsNull with
              | (s, evs1) => (s, evs0 ++ evs1)
          | none =>
            match warn cfg s .allocNotFound with
            | (s, evs1) => (s, evs0 ++ evs1)
        else (s, evs0)
      | none =>
        match warn cfg s .invalidParams with
        | (s, evs1) => (s, evs0 ++ evs1)
    else (s, evs0)

/-- `Player::ExecuteFlushAllocation`. -/
def executeFlushAllocation (cfg : Config) (env : Env) (s : PlayerState)
    (fields : List String) : PlayerState × List Event :=
  let s := { s with stats := s.stats.registerFunctionCall .flushAllocation }
  match validateFunctionParameterCount cfg s fields.length 3 false with
  | (s, evs0, ok) =>
    if ok then
      match parseAllocationRangeParams fields with
      | some (origPtr, offset, size) =>
        if origPtr ≠ 0 then
          match s.allocations origPtr with
          | some a =>
            if a.allocation ≠ 0 then
              (s, evs0 ++ [Event.call (.flushAllocation a.allocation offset size)])
            else
              match warn cfg s .allocIsNull with
              | (s, evs1) => (s, evs0 ++ evs1)
          | none =>
            match warn cfg s .allocNotFound with
            | (s, evs1) => (s, evs0 ++ evs1)
        else (s, evs0)
      | none =>
        match warn cfg s .invalidParams with
        | (s, evs1) => (s, evs0 ++ evs1)
    else (s, evs0)

/-- `Player::ExecuteInvalidateAllocation`. -/
def executeInvalidateAllocation (cfg : Config) (env : Env) (s : PlayerState)
    (fields : List String) : PlayerState × List Event :=
  let s := { s with stats := s.stats.registerFunctionCall .invalidateAllocation }
  match validateFunctionParameterCount cfg s fields.length 3 false with
  | (s, evs0, ok) =>
    if ok then
      match parseAllocationRangeParams fields with
      | some (origPtr, offset, size) =>
        if origPtr ≠ 0 then
          match s.allocations origPtr with
          | some a =>
            if a.allocation ≠ 0 then
              (s, evs0 ++ [Event.call (.invalidateAllocation a.allocation offset size)])
            else
              match warn cfg s .allocIsNull with
              | (s, evs1) => (s, evs0 ++ evs1)
          | none =>
            match warn cfg s .allocNotFound with
            | (s, evs1) => (s, evs0 ++ evs1)
        else (s, evs0)
      | none =>
        match warn cfg s .invalidParams with
        | (s, evs1) => (s, evs0 ++ evs1)
    else (s, evs0)

/-- `Player::ExecuteTouchAllocation`.  Unlike the destruction and
map-family handlers, there is no zero check before the registry lookup. -/
def executeTouchAllocation (cfg : Config) (env : Env) (s : PlayerState)
    (fields : List String) : PlayerState × List Event :=
  let s := { s with stats := s.stats.registerFunctionCall .touchAllocation }
  match validateFunctionParameterCount cfg s fields.length 1 false with
  | (s, evs0, ok) =>
    if ok then
      match strRangeToPtr (getField fields FIRST_PARAM_INDEX) with
      | some origPtr =>
        match s.allocations origPtr with
        | some a =>
          if a.allocation ≠ 0 then
            (s, evs0 ++ [Event.call (.touchAllocation a.allocation)])
          else
            match warn cfg s .allocIsNull with
            | (s, evs1) => (s, evs0 ++ evs1)
        | none =>
          match warn cfg s .allocNotFound with
          | (s, evs1) => (s, evs0 ++ evs1)
      | none =>
        match warn cfg s .invalidParams with
        | (s, evs1) => (s, evs0 ++ evs1)
    else (s, evs0)

/-- `Player::ExecuteGetAllocationInfo`.  Like touch-allocation, there is
no zero check before the registry lookup. -/
def executeGetAllocationInfo (cfg : Config) (env : Env) (s : PlayerState)
    (fields : List String) : PlayerState × List Event :=
  let s := { s with stats := s.stats.registerFunctionCall .getAllocationInfo }
  match validateFunctionParameterCount cfg s fields.length 1 false with
  | (s, evs0, ok) =>
    if ok then
      match strRangeToPtr (getField fields FIRST_PARAM_INDEX) with
      | some origPtr =>
        match s.allocations origPtr with
        | some a =>
          if a.allocation ≠ 0 then
            (s, evs0 ++ [Event.call (.getAllocationInfo a.allocation)])
          else
            match warn cfg s .allocIsNull with
            | (s, evs1) => (s, evs0 ++ evs1)
        | none =>
          match warn cfg s .allocNotFound with
          | (s, evs1) => (s, evs0 ++ evs1)
      | none =>
        match warn cfg s .invalidParams with
        | (s, evs1) => (s, evs0 ++ evs1)
    else (s, evs0)

/-- `Player::ExecuteMakePoolAllocationsLost`. -/
def executeMakePoolAllocationsLost (cfg : Config) (env : Env) (s : PlayerState)
    (fields : List String) : PlayerState × List Event :=
  let s := { s with stats := s.stats.registerFunctionCall .makePoolAllocationsLost }
  match validateFunctionParameterCount cfg s fields.length 1 false with
  | (s, evs0, ok) =>
    if ok then
      match strRangeToPtr (getField fields FIRST_PARAM_INDEX) with
      | some origPtr =>
        if origPtr ≠ 0 then
          match s.pools origPtr with
          | some p =>
            (s, evs0 ++ [Event.call (.makePoolAllocationsLost p.pool)])
          | none =>
            match warn cfg s .poolNotFound with
            | (s, evs1) => (s, evs0 ++ evs1)
        else (s, evs0)
      | none =>
        match warn cfg s .invalidParams with
        | (s, evs1) => (s, evs0 ++ evs1)
    else (s, evs0)

end VmaReplay

namespace VmaReplay

/-- The header processing of `Player::ExecuteLine` (thread id, timestamp,
frame index), performed for every record with at least 4 fields before
the operation name is dispatched. -/
def processHeader (cfg : Config) (s : PlayerState) (fields : List String) :
    PlayerState × List Event :=
  let r1 : PlayerState × List Event :=
    match strRangeToUint 32 (getField fields 0) with
    | some threadId =>
      match s.threads threadId with
      | some c => ({ s with threads := s.threads.insert threadId (c + 1) }, [])
      | none => ({ s with threads := s.threads.insert threadId 1 }, [])
    | none => warn cfg s .incorrectThreadId
  match r1 with
  | (s1, evs1) =>
    let s2 := { s1 with lastLineTimeStr := getField fields 1 }
    match strRangeToUint 32 (getField fields 2) with
    | some frameIndex =>
      if frameIndex ≠ s2.vmaFrameIndex then
        ({ s2 with vmaFrameIndex := frameIndex },
         evs1 ++ [Event.call (.setCurrentFrameIndex frameIndex)])
      else (s2, evs1)
    | none =>
      match warn cfg s2 .incorrectFrameIndex with
      | (s3, evs3) => (s3, evs1 ++ evs3)

/-- The operation-name dispatch chain of `Player::ExecuteLine`. -/
def dispatchFunction (cfg : Config) (env : Env) (s : PlayerState)
    (fields : List String) : PlayerState × List Event :=
  let functionName := getField fields 3
  if functionName = "vmaCreateAllocator" then
    match validateFunctionParameterCount cfg s fields.length 0 false with
    | (s, evs, _) => (s, evs)
  else if functionName = "vmaDestroyAllocator" then
    match validateFunctionParameterCount cfg s fields.length 0 false with
    | (s, evs, _) => (s, evs)
  else if functionName = "vmaCreatePool" then
    executeCreatePool cfg env s fields
  else if functionName = "vmaDestroyPool" then
    executeDestroyPool cfg env s fields
  else if functionName = "vmaSetAllocationUserData" then
    executeSetAllocationUserData cfg env s fields
  else if functionName = "vmaCreateBuffer" then
    executeCreateBuffer cfg env s fields
  else if functionName = "vmaDestroyBuffer" then
    executeDestroyBuffer cfg env s fields
  else if functionName = "vmaCreateImage" then
    executeCreateImage cfg env s fields
  else if functionName = "vmaDestroyImage" then
    executeDestroyImage cfg env s fields
  else if functionName = "vmaFreeMemory" then
    executeFreeMemory cfg env s fields
  else if functionName = "vmaCreateLostAllocation" then
    executeCreateLostAllocation cfg env s fields
  else if functionName = "vmaAllocateMemory" then
    executeAllocateMemory cfg env s fields
  else if functionName = "vmaAllocateMemoryForBuffer" then
    executeAllocateMemoryForBufferOrImage cfg env s fields .buffer
  else if functionName = "vmaAllocateMemoryForImage" then
    executeAllocateMemoryForBufferOrImage cfg env s fields .image
  else if functionName = "vmaMapMemory" then
    executeMapMemory cfg env s fields
  else if functionName = "vmaUnmapMemory" then
    executeUnmapMemory cfg env s fields
  else if functionName = "vmaFlushAllocation" then
    executeFlushAllocation cfg env s fields
  else if functionName = "vmaInvalidateAllocation" then
    executeInvalidateAllocation cfg env s fields
  else if functionName = "vmaTouchAllocation" then
    executeTouchAllocation cfg env s fields
  else if functionName = "vmaGetAllocationInfo" then
    executeGetAllocationInfo cfg env s fields
  else if functionName = "vmaMakePoolAllocationsLost" then
    executeMakePoolAllocationsLost cfg env s fields
  else
    warn cfg s .unknownFunction

/-- `Player::ExecuteLine`: split into fields, process the header and
dispatch; a record with fewer than 4 fields is skipped with a warning. -/
def executeLine (cfg : Config) (env : Env) (s : PlayerState)
    (fields : List String) : PlayerState × List Event :=
  if FIRST_PARAM_INDEX ≤ fields.length then
    match processHeader cfg s fields with
    | (s1, evs1) =>
      match dispatchFunction cfg env s1 fields with
      | (s2, evs2) => (s2, evs1 ++ evs2)
  else
    warn cfg s .tooFewColumns

/-- Raise `n` consecutive warnings through `Player::IssueWarning`,
returning the final state and how many of them were shown. -/
def issueWarnings (cfg : Config) (s : PlayerState) : Nat → PlayerState × Nat
  | 0 => (s, 0)
  | n + 1 =>
    match issueWarning cfg s with
    | (s1, shown) =>
      match issueWarnings cfg s1 n with
      | (s2, k) => (s2, (if shown then 1 else 0) + k)

end VmaReplay

namespace VmaReplay

/-! ### Helper lemmas -/

/-- Whether `IssueWarning` lets the message print in the given state. -/
def warnShown (cfg : Config) (s : PlayerState) : Bool :=
  if cfg.verbosity.ltMaximum then decide (s.warningCount < MAX_WARNINGS_TO_SHOW)
  else true

theorem warn_eq (cfg : Config) (s : PlayerState) (k : WarnKind) :
    warn cfg s k =
      ({ s with warningCount := s.warningCount + 1 },
       [Event.warn k (warnShown cfg s)]) := by
  unfold warn issueWarning warnShown
  cases h : cfg.verbosity.ltMaximum <;> simp [h]

theorem issueWarning_eq (cfg : Config) (s : PlayerState) :
    issueWarning cfg s =
      ({ s with warningCount := s.warningCount + 1 }, warnShown cfg s) := by
  unfold issueWarning warnShown
  cases h : cfg.verbosity.ltMaximum <;> simp [h]

theorem warnShown_set_stats (cfg : Config) (s : PlayerState) (st : Statistics) :
    warnShown cfg { s with stats := st } = warnShown cfg s := rfl

@[simp]
theorem HMap.insert_self {V : Type} (m : HMap V) (k : Nat) (v : V) :
    m.insert k v k = some v := by
  simp [HMap.insert]

theorem HMap.insert_ne {V : Type} (m : HMap V) (k x : Nat) (v : V) (h : x ≠ k) :
    m.insert k v x = m x := by
  simp [HMap.insert, h]

/-- Events that are calls to `vmaSetCurrentFrameIndex`. -/
def isFrameCall : Event → Bool
  | .call (.setCurrentFrameIndex _) => true
  | _ => false

/-- Events that are calls into the target allocator. -/
def isCall : Event → Bool
  | .call _ => true
  | _ => false

/-- Events that are warnings routed through `IssueWarning`. -/
def isWarn : Event → Bool
  | .warn _ _ => true
  | _ => false

/-- Warnings of one particular kind. -/
def isWarnKind (k : WarnKind) : Event → Bool
  | .warn k2 _ => k2 = k
  | _ => false

/-- Events that are messages printed without `IssueWarning`. -/
def isRawMsg : Event → Bool
  | .rawMsg _ => true
  | _ => false

/-! ### C1: the file version gate -/

/-- C1, counterexample.  The claim requires that every parsed pair with
minor > 2 is rejected, for all unsigned 32-bit values including those
that do not fit in 16 bits.  The pair (major, minor) = (1, 65536) has
minor > 2, yet the 16-bit packing `(major << 16) | minor` aliases it to
version 1,0 and the load is accepted. -/
theorem c1_counterexample :
    fileVersionAccepted 1 65536 = true ∧ 65536 > 2 ∧ (65536 : Nat) < 2 ^ 32 := by
  constructor
  · rfl
  · constructor <;> norm_num

/-- C1, amended: for every version pair in which major and minor each fit
in 16 bits, loading proceeds iff major = 1 and minor ≤ 2; pairs with a
component of 16 or more bits alias under the packing
`(major << 16) | minor` and are judged by the aliased value instead. -/
theorem c1_version_gate (major minor : Nat)
    (hmaj : major < 2 ^ 16) (hmin : minor < 2 ^ 16) :
    fileVersionAccepted major minor = true ↔ major = 1 ∧ minor ≤ 2 := by
  have hpack : packFileVersion major minor = 2 ^ 16 * major + minor := by
    unfold packFileVersion
    have hlt : major <<< 16 < 2 ^ 32 := by
      rw [Nat.shiftLeft_eq]
      calc major * 2 ^ 16 < 2 ^ 16 * 2 ^ 16 :=
            (Nat.mul_lt_mul_right (by norm_num)).mpr hmaj
        _ = 2 ^ 32 := by norm_num
    rw [Nat.mod_eq_of_lt hlt, Nat.shiftLeft_eq, Nat.mul_comm,
      ← Nat.mul_add_lt_is_or hmin]
  have h1 : (2 ^ 16 * major + minor) >>> 16 = major := by
    rw [Nat.shiftRight_eq_div_pow, Nat.mul_add_div (by norm_num),
      Nat.div_eq_of_lt hmin, Nat.add_zero]
  have h2 : (2 ^ 16 * major + minor) &&& 0xFFFF = minor := by
    have hm : (0xFFFF : Nat) = 2 ^ 16 - 1 := by norm_num
    rw [hm, Nat.and_pow_two_sub_one_eq_mod, Nat.mul_add_mod,
      Nat.mod_eq_of_lt hmin]
  unfold fileVersionAccepted validateFileVersion
  rw [hpack, h1, h2]
  simp

/-- C1 witness: version 1,2 is within 16 bits and accepted. -/
theorem c1_version_gate_witness :
    (1 : Nat) < 2 ^ 16 ∧ (2 : Nat) < 2 ^ 16 ∧ fileVersionAccepted 1 2 = true :=
  ⟨by norm_num, by norm_num,
   (c1_version_gate 1 2 (by norm_num) (by norm_num)).mpr ⟨rfl, by norm_num⟩⟩

end VmaReplay

namespace VmaReplay

/-! ### C5: the rate-limited warning sink -/

theorem issueWarnings_warningCount (cfg : Config) (W : Nat) :
    ∀ s : PlayerState,
      (issueWarnings cfg s W).1.warningCount = s.warningCount + W := by
  induction W with
  | zero => intro s; simp [issueWarnings]
  | succ n ih =>
    intro s
    simp only [issueWarnings, issueWarning_eq]
    rw [ih]
    simp
    omega

theorem issueWarnings_shown_ltMax (cfg : Config) (h : cfg.verbosity.ltMaximum = true)
    (W : Nat) :
    ∀ s : PlayerState,
      (issueWarnings cfg s W).2 =
        min W (MAX_WARNINGS_TO_SHOW - s.warningCount) := by
  induction W with
  | zero => intro s; simp [issueWarnings]
  | succ n ih =>
    intro s
    simp only [issueWarnings, issueWarning_eq]
    rw [ih]
    simp [warnShown, h, MAX_WARNINGS_TO_SHOW]
    by_cases hc : s.warningCount < 64 <;> simp [hc] <;> omega

theorem issueWarnings_shown_max (cfg : Config) (h : cfg.verbosity.ltMaximum = false)
    (W : Nat) :
    ∀ s : PlayerState, (issueWarnings cfg s W).2 = W := by
  induction W with
  | zero => intro s; simp [issueWarnings]
  | succ n ih =>
    intro s
    simp only [issueWarnings, issueWarning_eq]
    rw [ih]
    simp [warnShown, h]
    omega

/-- C5: with W > 64 warnings raised from a fresh run, below maximum
verbosity exactly the first 64 are shown (the i-th warning is shown iff
i < 64) and teardown reports W − 64 suppressed; at maximum verbosity all
W are shown and no suppressed count is reported. -/
theorem c5_warning_cap (cfg : Config) (W : Nat) (hW : MAX_WARNINGS_TO_SHOW < W) :
    (cfg.verbosity.ltMaximum = true →
      (issueWarnings cfg initialState W).2 = MAX_WARNINGS_TO_SHOW ∧
      (∀ i < W,
        (issueWarning cfg (issueWarnings cfg initialState i).1).2 =
          decide (i < MAX_WARNINGS_TO_SHOW)) ∧
      teardownSuppressedWarnings cfg (issueWarnings cfg initialState W).1 =
        some (W - MAX_WARNINGS_TO_SHOW)) ∧
    (cfg.verbosity.ltMaximum = false →
      (issueWarnings cfg initialState W).2 = W ∧
      teardownSuppressedWarnings cfg (issueWarnings cfg initialState W).1 = none) := by
  constructor
  · intro h
    refine ⟨?_, ?_, ?_⟩
    · rw [issueWarnings_shown_ltMax cfg h W]
      simp [initialState]
      omega
    · intro i _
      rw [issueWarning_eq]
      simp [warnShown, h]
      rw [issueWarnings_warningCount]
      simp [initialState]
    · unfold teardownSuppressedWarnings
      rw [issueWarnings_warningCount]
      simp [initialState, h]
      omega
  · intro h
    refine ⟨issueWarnings_shown_max cfg h W initialState, ?_⟩
    unfold teardownSuppressedWarnings
    simp [h]

/-- C5 witness: 65 warnings at default verbosity. -/
theorem c5_warning_cap_witness :
    MAX_WARNINGS_TO_SHOW < 65 ∧
    (Config.mk .default true).verbosity.ltMaximum = true ∧
    ((issueWarnings (Config.mk .default true) initialState 65).2 =
        MAX_WARNINGS_TO_SHOW ∧
      teardownSuppressedWarnings (Config.mk .default true)
        (issueWarnings (Config.mk .default true) initialState 65).1 = some 1) := by
  refine ⟨by decide, by decide, ?_⟩
  have h := (c5_warning_cap (Config.mk .default true) 65 (by decide)).1 (by decide)
  exact ⟨h.1, h.2.2⟩

end VmaReplay

namespace VmaReplay

/-! ### C6: frame-boundary notification -/

/-- C6: whenever a record's frame-index field parses to v, the engine
calls `vmaSetCurrentFrameIndex` exactly once if v differs from the
current frame index and never if it is equal, and afterwards the current
frame index equals v. -/
theorem c6_frame_notification (cfg : Config) (s : PlayerState)
    (fields : List String) (v : Nat)
    (hv : strRangeToUint 32 (getField fields 2) = some v) :
    (processHeader cfg s fields).1.vmaFrameIndex = v ∧
    (processHeader cfg s fields).2.filter isFrameCall =
      (if v = s.vmaFrameIndex then []
       else [Event.call (.setCurrentFrameIndex v)]) := by
  unfold processHeader
  rcases hthread : strRangeToUint 32 (getField fields 0) with _ | tid
  · simp only [hthread, warn_eq, hv]
    by_cases hfi : v = s.vmaFrameIndex <;>
      simp [hfi, isFrameCall, List.filter]
  · rcases hfound : s.threads tid with _ | c <;>
      simp only [hthread, hfound, hv] <;>
      by_cases hfi : v = s.vmaFrameIndex <;>
      simp [hfi, isFrameCall, List.filter]

/-- C6 witness: a record with frame index 7 processed at current frame
index 0 notifies the allocator once and sets the current index to 7. -/
theorem c6_frame_notification_witness :
    strRangeToUint 32 (getField ["0", "0.0", "7", "op"] 2) = some 7 ∧
    ((processHeader (Config.mk .default true) initialState
        ["0", "0.0", "7", "op"]).1.vmaFrameIndex = 7 ∧
      (processHeader (Config.mk .default true) initialState
          ["0", "0.0", "7", "op"]).2.filter isFrameCall =
        (if 7 = initialState.vmaFrameIndex then []
         else [Event.call (.setCurrentFrameIndex 7)])) :=
  ⟨by decide,
   c6_frame_notification (Config.mk .default true) initialState
     ["0", "0.0", "7", "op"] 7 (by decide)⟩

end VmaReplay

namespace VmaReplay

/-! ### C2: the divergence reconciliation matrix -/

/-- C2: for every creation-style reconciliation with a fresh original id
(the duplicate-id policy is claim C4), the 2×2 matrix of
(original nonzero?, live succeeded?) holds uniformly for the allocation
path (`AddAllocation`, used by buffer, image, raw-allocation and
lost-allocation creation) and the pool path inlined in
`ExecuteCreatePool`: nonzero/succeeded registers the descriptor with no
warning; nonzero/failed warns and registers the descriptor (whose live
handles are null, the failed call having produced none) under the id;
zero/succeeded warns and immediately destroys the live object without
registering it; zero/failed warns and registers nothing. -/
theorem c2_reconciliation_matrix (cfg : Config) (s : PlayerState) (origPtr : Nat)
    (desc : Allocation) (pdesc : Pool)
    (hnz : origPtr ≠ 0)
    (hfreshA : s.allocations origPtr = none)
    (hfreshP : s.pools origPtr = none) :
    (addAllocation cfg s origPtr true desc =
      ({ s with allocations := s.allocations.insert origPtr desc }, []) ∧
     addAllocation cfg s origPtr false desc =
      ({ s with warningCount := s.warningCount + 1,
                allocations := s.allocations.insert origPtr desc },
       [Event.warn .createFailedOrigSucceeded (warnShown cfg s)]) ∧
     addAllocation cfg s 0 true desc =
      ({ s with warningCount := s.warningCount + 1 },
       [Event.warn .createSucceededOrigFailed (warnShown cfg s),
        Event.call (destroyCall desc)]) ∧
     addAllocation cfg s 0 false desc =
      ({ s with warningCount := s.warningCount + 1 },
       [Event.warn .createFailedOrigFailed (warnShown cfg s)])) ∧
    (reconcilePool cfg s origPtr true pdesc =
      ({ s with pools := s.pools.insert origPtr pdesc }, []) ∧
     reconcilePool cfg s origPtr false pdesc =
      ({ s with warningCount := s.warningCount + 1,
                pools := s.pools.insert origPtr pdesc },
       [Event.warn .createFailedOrigSucceeded (warnShown cfg s)]) ∧
     reconcilePool cfg s 0 true pdesc =
      ({ s with warningCount := s.warningCount + 1 },
       [Event.warn .createSucceededOrigFailed (warnShown cfg s),
        Event.call (.destroyPool pdesc.pool)]) ∧
     reconcilePool cfg s 0 false pdesc =
      ({ s with warningCount := s.warningCount + 1 },
       [Event.warn .createFailedOrigFailed (warnShown cfg s)])) := by
  unfold addAllocation reconcilePool
  simp [hnz, hfreshA, hfreshP, warn_eq]

/-- C2 witness: the matrix at a fresh id 5 in the initial state. -/
theorem c2_reconciliation_matrix_witness :
    (5 : Nat) ≠ 0 ∧ initialState.allocations 5 = none ∧
    initialState.pools 5 = none ∧
    ((addAllocation (Config.mk .default true) initialState 5 true
        (Allocation.mk 0 1 2 0) =
      ({ initialState with
          allocations := initialState.allocations.insert 5 (Allocation.mk 0 1 2 0) },
       []) ∧
     addAllocation (Config.mk .default true) initialState 5 false
        (Allocation.mk 0 1 2 0) =
      ({ initialState with
          warningCount := initialState.warningCount + 1,
          allocations := initialState.allocations.insert 5 (Allocation.mk 0 1 2 0) },
       [Event.warn .createFailedOrigSucceeded
          (warnShown (Config.mk .default true) initialState)]) ∧
     addAllocation (Config.mk .default true) initialState 0 true
        (Allocation.mk 0 1 2 0) =
      ({ initialState with warningCount := initialState.warningCount + 1 },
       [Event.warn .createSucceededOrigFailed
          (warnShown (Config.mk .default true) initialState),
        Event.call (destroyCall (Allocation.mk 0 1 2 0))]) ∧
     addAllocation (Config.mk .default true) initialState 0 false
        (Allocation.mk 0 1 2 0) =
      ({ initialState with warningCount := initialState.warningCount + 1 },
       [Event.warn .createFailedOrigFailed
          (warnShown (Config.mk .default true) initialState)])) ∧
    (reconcilePool (Config.mk .default true) initialState 5 true (Pool.mk 3) =
      ({ initialState with pools := initialState.pools.insert 5 (Pool.mk 3) },
       []) ∧
     reconcilePool (Config.mk .default true) initialState 5 false (Pool.mk 3) =
      ({ initialState with
          warningCount := initialState.warningCount + 1,
          pools := initialState.pools.insert 5 (Pool.mk 3) },
       [Event.warn .createFailedOrigSucceeded
          (warnShown (Config.mk .default true) initialState)]) ∧
     reconcilePool (Config.mk .default true) initialState 0 true (Pool.mk 3) =
      ({ initialState with warningCount := initialState.warningCount + 1 },
       [Event.warn .createSucceededOrigFailed
          (warnShown (Config.mk .default true) initialState),
        Event.call (.destroyPool (Pool.mk 3).pool)]) ∧
     reconcilePool (Config.mk .default true) initialState 0 false (Pool.mk 3) =
      ({ initialState with warningCount := initialState.warningCount + 1 },
       [Event.warn .createFailedOrigFailed
          (warnShown (Config.mk .default true) initialState)]))) :=
  ⟨by decide, rfl, rfl,
   c2_reconciliation_matrix (Config.mk .default true) initialState 5
     (Allocation.mk 0 1 2 0) (Pool.mk 3) (by decide) rfl rfl⟩

/-! ### C4: duplicate original ids -/

/-- C4: a creation record registering under a nonzero original id that is
still live produces exactly one duplicate-handle warning, leaves the
registry mapping that id to the new (second) descriptor, and issues no
destruction call for the previous live object. -/
theorem c4_duplicate_id (cfg : Config) (s : PlayerState) (origPtr : Nat)
    (res : Bool) (old descNew : Allocation) (pold pnew : Pool)
    (hnz : origPtr ≠ 0)
    (hliveA : s.allocations origPtr = some old)
    (hliveP : s.pools origPtr = some pold) :
    (((addAllocation cfg s origPtr res descNew).2.filter
        (isWarnKind .allocAlreadyExists)).length = 1 ∧
      (addAllocation cfg s origPtr res descNew).1.allocations origPtr =
        some descNew ∧
      (addAllocation cfg s origPtr res descNew).2.filter isCall = []) ∧
    (((reconcilePool cfg s origPtr res pnew).2.filter
        (isWarnKind .poolAlreadyExists)).length = 1 ∧
      (reconcilePool cfg s origPtr res pnew).1.pools origPtr = some pnew ∧
      (reconcilePool cfg s origPtr res pnew).2.filter isCall = []) := by
  unfold addAllocation reconcilePool
  cases res <;>
    simp [hnz, hliveA, hliveP, warn_eq, isWarnKind, isCall, List.filter]

/-- C4 witness: re-registering id 5 while its first mapping is live. -/
theorem c4_duplicate_id_witness :
    (5 : Nat) ≠ 0 ∧
    ({ initialState with
        allocations := HMap.empty.insert 5 (Allocation.mk 0 1 0 0),
        pools := HMap.empty.insert 5 (Pool.mk 2) } : PlayerState).allocations 5 =
      some (Allocation.mk 0 1 0 0) ∧
    ((((addAllocation (Config.mk .default true)
          { initialState with
              allocations := HMap.empty.insert 5 (Allocation.mk 0 1 0 0),
              pools := HMap.empty.insert 5 (Pool.mk 2) } 5 true
          (Allocation.mk 0 9 0 0)).2.filter
        (isWarnKind .allocAlreadyExists)).length = 1 ∧
      (addAllocation (Config.mk .default true)
          { initialState with
              allocations := HMap.empty.insert 5 (Allocation.mk 0 1 0 0),
              pools := HMap.empty.insert 5 (Pool.mk 2) } 5 true
          (Allocation.mk 0 9 0 0)).1.allocations 5 =
        some (Allocation.mk 0 9 0 0) ∧
      (addAllocation (Config.mk .default true)
          { initialState with
              allocations := HMap.empty.insert 5 (Allocation.mk 0 1 0 0),
              pools := HMap.empty.insert 5 (Pool.mk 2) } 5 true
          (Allocation.mk 0 9 0 0)).2.filter isCall = []) ∧
    (((reconcilePool (Config.mk .default true)
          { initialState with
              allocations := HMap.empty.insert 5 (Allocation.mk 0 1 0 0),
              pools := HMap.empty.insert 5 (Pool.mk 2) } 5 true
          (Pool.mk 7)).2.filter
        (isWarnKind .poolAlreadyExists)).length = 1 ∧
      (reconcilePool (Config.mk .default true)
          { initialState with
              allocations := HMap.empty.insert 5 (Allocation.mk 0 1 0 0),
              pools := HMap.empty.insert 5 (Pool.mk 2) } 5 true
          (Pool.mk 7)).1.pools 5 = some (Pool.mk 7) ∧
      (reconcilePool (Config.mk .default true)
          { initialState with
              allocations := HMap.empty.insert 5 (Allocation.mk 0 1 0 0),
              pools := HMap.empty.insert 5 (Pool.mk 2) } 5 true
          (Pool.mk 7)).2.filter isCall = [])) :=
  ⟨by decide, rfl,
   c4_duplicate_id (Config.mk .default true)
     { initialState with
         allocations := HMap.empty.insert 5 (Allocation.mk 0 1 0 0),
         pools := HMap.empty.insert 5 (Pool.mk 2) } 5 true
     (Allocation.mk 0 1 0 0) (Allocation.mk 0 9 0 0) (Pool.mk 2) (Pool.mk 7)
     (by decide) rfl rfl⟩

end VmaReplay

namespace VmaReplay

/-! ### C10: zero allocation ids -/

/-- C10: a destroy-buffer, destroy-image, free-memory, map, unmap, flush
or invalidate record whose allocation id parses to zero is a silent
no-op (the call counter still increments, no allocator call and no
warning), whereas touch-allocation and get-allocation-info look the id
up without a zero check and warn "Allocation not found". -/
theorem c10_zero_alloc_id (cfg : Config) (env : Env) (s : PlayerState)
    (t0 t1 t2 t3 z o z2 : String) (offv szv : Nat)
    (hz : strRangeToPtr z = some 0)
    (ho : strRangeToUint 64 o = some offv)
    (hsz : strRangeToUint 64 z2 = some szv)
    (hnf : s.allocations 0 = none) :
    executeDestroyBuffer cfg env s [t0, t1, t2, t3, z] =
      ({ s with stats := s.stats.registerFunctionCall .destroyBuffer }, []) ∧
    executeDestroyImage cfg env s [t0, t1, t2, t3, z] =
      ({ s with stats := s.stats.registerFunctionCall .destroyImage }, []) ∧
    executeFreeMemory cfg env s [t0, t1, t2, t3, z] =
      ({ s with stats := s.stats.registerFunctionCall .freeMemory }, []) ∧
    executeMapMemory cfg env s [t0, t1, t2, t3, z] =
      ({ s with stats := s.stats.registerFunctionCall .mapMemory }, []) ∧
    executeUnmapMemory cfg env s [t0, t1, t2, t3, z] =
      ({ s with stats := s.stats.registerFunctionCall .unmapMemory }, []) ∧
    executeFlushAllocation cfg env s [t0, t1, t2, t3, z, o, z2] =
      ({ s with stats := s.stats.registerFunctionCall .flushAllocation }, []) ∧
    executeInvalidateAllocation cfg env s [t0, t1, t2, t3, z, o, z2] =
      ({ s with stats := s.stats.registerFunctionCall .invalidateAllocation }, []) ∧
    executeTouchAllocation cfg env s [t0, t1, t2, t3, z] =
      ({ s with
          warningCount := s.warningCount + 1,
          stats := s.stats.registerFunctionCall .touchAllocation },
       [Event.warn .allocNotFound (warnShown cfg s)]) ∧
    executeGetAllocationInfo cfg env s [t0, t1, t2, t3, z] =
      ({ s with
          warningCount := s.warningCount + 1,
          stats := s.stats.registerFunctionCall .getAllocationInfo },
       [Event.warn .allocNotFound (warnShown cfg s)]) := by
  refine ⟨?_, ?_, ?_, ?_, ?_, ?_, ?_, ?_, ?_⟩ <;>
    simp [executeDestroyBuffer, executeDestroyImage, executeFreeMemory,
      destroyAllocation, executeMapMemory, executeUnmapMemory,
      executeFlushAllocation, executeInvalidateAllocation,
      executeTouchAllocation, executeGetAllocationInfo,
      parseAllocationRangeParams,
      hz, ho, hsz, hnf, warn_eq, warnShown_set_stats,
      validateFunctionParameterCount, getField, FIRST_PARAM_INDEX]

/-- C10 witness: records with allocation-id field "0" in the initial
state. -/
theorem c10_zero_alloc_id_witness :
    strRangeToPtr "0" = some 0 ∧
    strRangeToUint 64 "8" = some 8 ∧
    strRangeToUint 64 "16" = some 16 ∧
    initialState.allocations 0 = none ∧
    (executeMapMemory (Config.mk .default true)
        (Env.mk true 1 2 3 4) initialState ["0", "0.0", "0", "vmaMapMemory", "0"] =
      ({ initialState with
          stats := initialState.stats.registerFunctionCall .mapMemory }, []) ∧
     executeTouchAllocation (Config.mk .default true)
        (Env.mk true 1 2 3 4) initialState
        ["0", "0.0", "0", "vmaTouchAllocation", "0"] =
      ({ initialState with
          warningCount := initialState.warningCount + 1,
          stats := initialState.stats.registerFunctionCall .touchAllocation },
       [Event.warn .allocNotFound
          (warnShown (Config.mk .default true) initialState)])) := by
  have h := c10_zero_alloc_id (Config.mk .default true) (Env.mk true 1 2 3 4)
    initialState "0" "0.0" "0" "vmaMapMemory" "0" "8" "16" 8 16
    (by decide) (by decide) (by decide) rfl
  have h2 := c10_zero_alloc_id (Config.mk .default true) (Env.mk true 1 2 3 4)
    initialState "0" "0.0" "0" "vmaTouchAllocation" "0" "8" "16" 8 16
    (by decide) (by decide) (by decide) rfl
  exact ⟨by decide, by decide, by decide, rfl,
    h.2.2.2.1, h2.2.2.2.2.2.2.2.1⟩

end VmaReplay

namespace VmaReplay

/-! ### C3: arity mismatches -/

theorem executeLine_eq (cfg : Config) (env : Env) (s : PlayerState)
    (fields : List String) (h4 : FIRST_PARAM_INDEX ≤ fields.length) :
    executeLine cfg env s fields =
      ((dispatchFunction cfg env (processHeader cfg s fields).1 fields).1,
       (processHeader cfg s fields).2 ++
         (dispatchFunction cfg env (processHeader cfg s fields).1 fields).2) := by
  unfold executeLine
  rw [if_pos h4]

theorem processHeader_spec (cfg : Config) (s : PlayerState) (fields : List String)
    (hfr : strRangeToUint 32 (getField fields 2) = some s.vmaFrameIndex) :
    (processHeader cfg s fields).1.stats = s.stats ∧
    (processHeader cfg s fields).1.pools = s.pools ∧
    (processHeader cfg s fields).1.allocations = s.allocations ∧
    (processHeader cfg s fields).1.vmaFrameIndex = s.vmaFrameIndex ∧
    (processHeader cfg s fields).2.filter isCall = [] ∧
    (processHeader cfg s fields).2.filter (isWarnKind .paramCount) = [] := by
  unfold processHeader
  rcases hthread : strRangeToUint 32 (getField fields 0) with _ | tid
  · simp [hthread, warn_eq, hfr, isCall, isWarnKind, List.filter]
  · rcases hfound : s.threads tid with _ | c <;>
      simp [hthread, hfound, hfr, isCall, isWarnKind, List.filter]

/-- The arity constant each handler passes to
`validateFunctionParameterCount`: the expected parameter count and
whether the last parameter is unbound. -/
def functionArity : VmaFunction → Nat × Bool
  | .createPool => (7, false)
  | .destroyPool => (1, false)
  | .setAllocationUserData => (2, true)
  | .createBuffer => (12, true)
  | .destroyBuffer => (1, false)
  | .createImage => (21, true)
  | .destroyImage => (1, false)
  | .freeMemory => (1, false)
  | .createLostAllocation => (1, false)
  | .allocateMemory => (11, true)
  | .allocateMemoryForBuffer => (13, true)
  | .allocateMemoryForImage => (13, true)
  | .mapMemory => (1, false)
  | .unmapMemory => (1, false)
  | .flushAllocation => (3, false)
  | .invalidateAllocation => (3, false)
  | .touchAllocation => (1, false)
  | .getAllocationInfo => (1, false)
  | .makePoolAllocationsLost => (1, false)

/-- The arity check of `ValidateFunctionParameterCount` for a given
operation and record field count: at least `FIRST_PARAM_INDEX +
expected - 1` fields when the last parameter is unbound, exactly
`FIRST_PARAM_INDEX + expected` fields otherwise. -/
def arityMatches (f : VmaFunction) (fieldCount : Nat) : Bool :=
  if (functionArity f).2 then
    decide (FIRST_PARAM_INDEX + (functionArity f).1 - 1 ≤ fieldCount)
  else
    decide (fieldCount = FIRST_PARAM_INDEX + (functionArity f).1)

set_option maxHeartbeats 1000000 in
theorem dispatch_arity_fail (cfg : Config) (env : Env) (s1 : PlayerState)
    (f : VmaFunction) (fields : List String)
    (hud : f = .setAllocationUserData → cfg.userDataEnabled = true)
    (hmis : arityMatches f fields.length = false)
    (hname : getField fields 3 = vmaFunctionName f) :
    dispatchFunction cfg env s1 fields =
      ({ s1 with
          warningCount := s1.warningCount + 1,
          stats := s1.stats.registerFunctionCall f },
       [Event.warn .paramCount (warnShown cfg s1)]) := by
  cases f
  case createPool =>
    have hm : ¬ fields.length = 11 := by
      simpa [arityMatches, functionArity, FIRST_PARAM_INDEX] using hmis
    simp [dispatchFunction, hname, vmaFunctionName, hm,
      executeCreatePool, executeDestroyPool, executeSetAllocationUserData,
      executeCreateBuffer, executeDestroyBuffer, executeDestroyImage,
      executeFreeMemory, destroyAllocation, executeCreateImage,
      executeCreateLostAllocation, executeAllocateMemory,
      executeAllocateMemoryForBufferOrImage, executeMapMemory,
      executeUnmapMemory, executeFlushAllocation,
      executeInvalidateAllocation, executeTouchAllocation,
      executeGetAllocationInfo, executeMakePoolAllocationsLost,
      validateFunctionParameterCount, warn_eq, warnShown_set_stats,
      FIRST_PARAM_INDEX]
  case destroyPool =>
    have hm : ¬ fields.length = 5 := by
      simpa [arityMatches, functionArity, FIRST_PARAM_INDEX] using hmis
    simp [dispatchFunction, hname, vmaFunctionName, hm,
      executeCreatePool, executeDestroyPool, executeSetAllocationUserData,
      executeCreateBuffer, executeDestroyBuffer, executeDestroyImage,
      executeFreeMemory, destroyAllocation, executeCreateImage,
      executeCreateLostAllocation, executeAllocateMemory,
      executeAllocateMemoryForBufferOrImage, executeMapMemory,
      executeUnmapMemory, executeFlushAllocation,
      executeInvalidateAllocation, executeTouchAllocation,
      executeGetAllocationInfo, executeMakePoolAllocationsLost,
      validateFunctionParameterCount, warn_eq, warnShown_set_stats,
      FIRST_PARAM_INDEX]
  case destroyBuffer =>
    have hm : ¬ fields.length = 5 := by
      simpa [arityMatches, functionArity, FIRST_PARAM_INDEX] using hmis
    simp [dispatchFunction, hname, vmaFunctionName, hm,
      executeCreatePool, executeDestroyPool, executeSetAllocationUserData,
      executeCreateBuffer, executeDestroyBuffer, executeDestroyImage,
      executeFreeMemory, destroyAllocation, executeCreateImage,
      executeCreateLostAllocation, executeAllocateMemory,
      executeAllocateMemoryForBufferOrImage, executeMapMemory,
      executeUnmapMemory, executeFlushAllocation,
      executeInvalidateAllocation, executeTouchAllocation,
      executeGetAllocationInfo, executeMakePoolAllocationsLost,
      validateFunctionParameterCount, warn_eq, warnShown_set_stats,
      FIRST_PARAM_INDEX]
  case destroyImage =>
    have hm : ¬ fields.length = 5 := by
      simpa [arityMatches, functionArity, FIRST_PARAM_INDEX] using hmis
    simp [dispatchFunction, hname, vmaFunctionName, hm,
      executeCreatePool, executeDestroyPool, executeSetAllocationUserData,
      executeCreateBuffer, executeDestroyBuffer, executeDestroyImage,
      executeFreeMemory, destroyAllocation, executeCreateImage,
      executeCreateLostAllocation, executeAllocateMemory,
      executeAllocateMemoryForBufferOrImage, executeMapMemory,
      executeUnmapMemory, executeFlushAllocation,
      executeInvalidateAllocation, executeTouchAllocation,
      executeGetAllocationInfo, executeMakePoolAllocationsLost,
      validateFunctionParameterCount, warn_eq, warnShown_set_stats,
      FIRST_PARAM_INDEX]
  case freeMemory =>
    have hm : ¬ fields.length = 5 := by
      simpa [arityMatches, functionArity, FIRST_PARAM_INDEX] using hmis
    simp [dispatchFunction, hname, vmaFunctionName, hm,
      executeCreatePool, executeDestroyPool, executeSetAllocationUserData,
      executeCreateBuffer, executeDestroyBuffer, executeDestroyImage,
      executeFreeMemory, destroyAllocation, executeCreateImage,
      executeCreateLostAllocation, executeAllocateMemory,
      executeAllocateMemoryForBufferOrImage, executeMapMemory,
      executeUnmapMemory, executeFlushAllocation,
      executeInvalidateAllocation, executeTouchAllocation,
      executeGetAllocationInfo, executeMakePoolAllocationsLost,
      validateFunctionParameterCount, warn_eq, warnShown_set_stats,
      FIRST_PARAM_INDEX]
  case createLostAllocation =>
    have hm : ¬ fields.length = 5 := by
      simpa [arityMatches, functionArity, FIRST_PARAM_INDEX] using hmis
    simp [dispatchFunction, hname, vmaFunctionName, hm,
      executeCreatePool, executeDestroyPool, executeSetAllocationUserData,
      executeCreateBuffer, executeDestroyBuffer, executeDestroyImage,
      executeFreeMemory, destroyAllocation, executeCreateImage,
      executeCreateLostAllocation, executeAllocateMemory,
      executeAllocateMemoryForBufferOrImage, executeMapMemory,
      executeUnmapMemory, executeFlushAllocation,
      executeInvalidateAllocation, executeTouchAllocation,
      executeGetAllocationInfo, executeMakePoolAllocationsLost,
      validateFunctionParameterCount, warn_eq, warnShown_set_stats,
      FIRST_PARAM_INDEX]
  case mapMemory =>
    have hm : ¬ fields.length = 5 := by
      simpa [arityMatches, functionArity, FIRST_PARAM_INDEX] using hmis
    simp [dispatchFunction, hname, vmaFunctionName, hm,
      executeCreatePool, executeDestroyPool, executeSetAllocationUserData,
      executeCreateBuffer, executeDestroyBuffer, executeDestroyImage,
      executeFreeMemory, destroyAllocation, executeCreateImage,
      executeCreateLostAllocation, executeAllocateMemory,
      executeAllocateMemoryForBufferOrImage, executeMapMemory,
      executeUnmapMemory, executeFlushAllocation,
      executeInvalidateAllocation, executeTouchAllocation,
      executeGetAllocationInfo, executeMakePoolAllocationsLost,
      validateFunctionParameterCount, warn_eq, warnShown_set_stats,
      FIRST_PARAM_INDEX]
  case unmapMemory =>
    have hm : ¬ fields.length = 5 := by
      simpa [arityMatches, functionArity, FIRST_PARAM_INDEX] using hmis
    simp [dispatchFunction, hname, vmaFunctionName, hm,
      executeCreatePool, executeDestroyPool, executeSetAllocationUserData,
      executeCreateBuffer, executeDestroyBuffer, executeDestroyImage,
      executeFreeMemory, destroyAllocation, executeCreateImage,
      executeCreateLostAllocation, executeAllocateMemory,
      executeAllocateMemoryForBufferOrImage, executeMapMemory,
      executeUnmapMemory, executeFlushAllocation,
      executeInvalidateAllocation, executeTouchAllocation,
      executeGetAllocationInfo, executeMakePoolAllocationsLost,
      validateFunctionParameterCount, warn_eq, warnShown_set_stats,
      FIRST_PARAM_INDEX]
  case flushAllocation =>
    have hm : ¬ fields.length = 7 := by
      simpa [arityMatches, functionArity, FIRST_PARAM_INDEX] using hmis
    simp [dispatchFunction, hname, vmaFunctionName, hm,
      executeCreatePool, executeDestroyPool, executeSetAllocationUserData,
      executeCreateBuffer, executeDestroyBuffer, executeDestroyImage,
      executeFreeMemory, destroyAllocation, executeCreateImage,
      executeCreateLostAllocation, executeAllocateMemory,
      executeAllocateMemoryForBufferOrImage, executeMapMemory,
      executeUnmapMemory, executeFlushAllocation,
      executeInvalidateAllocation, executeTouchAllocation,
      executeGetAllocationInfo, executeMakePoolAllocationsLost,
      validateFunctionParameterCount, warn_eq, warnShown_set_stats,
      FIRST_PARAM_INDEX]
  case invalidateAllocation =>
    have hm : ¬ fields.length = 7 := by
      simpa [arityMatches, functionArity, FIRST_PARAM_INDEX] using hmis
    simp [dispatchFunction, hname, vmaFunctionName, hm,
      executeCreatePool, executeDestroyPool, executeSetAllocationUserData,
      executeCreateBuffer, executeDestroyBuffer, executeDestroyImage,
      executeFreeMemory, destroyAllocation, executeCreateImage,
      executeCreateLostAllocation, executeAllocateMemory,
      executeAllocateMemoryForBufferOrImage, executeMapMemory,
      executeUnmapMemory, executeFlushAllocation,
      executeInvalidateAllocation, executeTouchAllocation,
      executeGetAllocationInfo, executeMakePoolAllocationsLost,
      validateFunctionParameterCount, warn_eq, warnShown_set_stats,
      FIRST_PARAM_INDEX]
  case touchAllocation =>
    have hm : ¬ fields.length = 5 := by
      simpa [arityMatches, functionArity, FIRST_PARAM_INDEX] using hmis
    simp [dispatchFunction, hname, vmaFunctionName, hm,
      executeCreatePool, executeDestroyPool, executeSetAllocationUserData,
      executeCreateBuffer, executeDestroyBuffer, executeDestroyImage,
      executeFreeMemory, destroyAllocation, executeCreateImage,
      executeCreateLostAllocation, executeAllocateMemory,
      executeAllocateMemoryForBufferOrImage, executeMapMemory,
      executeUnmapMemory, executeFlushAllocation,
      executeInvalidateAllocation, executeTouchAllocation,
      executeGetAllocationInfo, executeMakePoolAllocationsLost,
      validateFunctionParameterCount, warn_eq, warnShown_set_stats,
      FIRST_PARAM_INDEX]
  case getAllocationInfo =>
    have hm : ¬ fields.length = 5 := by
      simpa [arityMatches, functionArity, FIRST_PARAM_INDEX] using hmis
    simp [dispatchFunction, hname, vmaFunctionName, hm,
      executeCreatePool, executeDestroyPool, executeSetAllocationUserData,
      executeCreateBuffer, executeDestroyBuffer, executeDestroyImage,
      executeFreeMemory, destroyAllocation, executeCreateImage,
      executeCreateLostAllocation, executeAllocateMemory,
      executeAllocateMemoryForBufferOrImage, executeMapMemory,
      executeUnmapMemory, executeFlushAllocation,
      executeInvalidateAllocation, executeTouchAllocation,
      executeGetAllocationInfo, executeMakePoolAllocationsLost,
      validateFunctionParameterCount, warn_eq, warnShown_set_stats,
      FIRST_PARAM_INDEX]
  case makePoolAllocationsLost =>
    have hm : ¬ fields.length = 5 := by
      simpa [arityMatches, functionArity, FIRST_PARAM_INDEX] using hmis
    simp [dispatchFunction, hname, vmaFunctionName, hm,
      executeCreatePool, executeDestroyPool, executeSetAllocationUserData,
      executeCreateBuffer, executeDestroyBuffer, executeDestroyImage,
      executeFreeMemory, destroyAllocation, executeCreateImage,
      executeCreateLostAllocation, executeAllocateMemory,
      executeAllocateMemoryForBufferOrImage, executeMapMemory,
      executeUnmapMemory, executeFlushAllocation,
      executeInvalidateAllocation, executeTouchAllocation,
      executeGetAllocationInfo, executeMakePoolAllocationsLost,
      validateFunctionParameterCount, warn_eq, warnShown_set_stats,
      FIRST_PARAM_INDEX]
  case setAllocationUserData =>
    have hm : ¬ 5 ≤ fields.length := by
      simpa [arityMatches, functionArity, FIRST_PARAM_INDEX] using hmis
    simp [dispatchFunction, hname, vmaFunctionName, hm, hud rfl,
      executeCreatePool, executeDestroyPool, executeSetAllocationUserData,
      executeCreateBuffer, executeDestroyBuffer, executeDestroyImage,
      executeFreeMemory, destroyAllocation, executeCreateImage,
      executeCreateLostAllocation, executeAllocateMemory,
      executeAllocateMemoryForBufferOrImage, executeMapMemory,
      executeUnmapMemory, executeFlushAllocation,
      executeInvalidateAllocation, executeTouchAllocation,
      executeGetAllocationInfo, executeMakePoolAllocationsLost,
      validateFunctionParameterCount, warn_eq, warnShown_set_stats,
      FIRST_PARAM_INDEX]
  case createBuffer =>
    have hm : ¬ 15 ≤ fields.length := by
      simpa [arityMatches, functionArity, FIRST_PARAM_INDEX] using hmis
    simp [dispatchFunction, hname, vmaFunctionName, hm,
      executeCreatePool, executeDestroyPool, executeSetAllocationUserData,
      executeCreateBuffer, executeDestroyBuffer, executeDestroyImage,
      executeFreeMemory, destroyAllocation, executeCreateImage,
      executeCreateLostAllocation, executeAllocateMemory,
      executeAllocateMemoryForBufferOrImage, executeMapMemory,
      executeUnmapMemory, executeFlushAllocation,
      executeInvalidateAllocation, executeTouchAllocation,
      executeGetAllocationInfo, executeMakePoolAllocationsLost,
      validateFunctionParameterCount, warn_eq, warnShown_set_stats,
      FIRST_PARAM_INDEX]
  case createImage =>
    have hm : ¬ 24 ≤ fields.length := by
      simpa [arityMatches, functionArity, FIRST_PARAM_INDEX] using hmis
    simp [dispatchFunction, hname, vmaFunctionName, hm,
      executeCreatePool, executeDestroyPool, executeSetAllocationUserData,
      executeCreateBuffer, executeDestroyBuffer, executeDestroyImage,
      executeFreeMemory, destroyAllocation, executeCreateImage,
      executeCreateLostAllocation, executeAllocateMemory,
      executeAllocateMemoryForBufferOrImage, executeMapMemory,
      executeUnmapMemory, executeFlushAllocation,
      executeInvalidateAllocation, executeTouchAllocation,
      executeGetAllocationInfo, executeMakePoolAllocationsLost,
      validateFunctionParameterCount, warn_eq, warnShown_set_stats,
      FIRST_PARAM_INDEX]
  case allocateMemory =>
    have hm : ¬ 14 ≤ fields.length := by
      simpa [arityMatches, functionArity, FIRST_PARAM_INDEX] using hmis
    simp [dispatchFunction, hname, vmaFunctionName, hm,
      executeCreatePool, executeDestroyPool, executeSetAllocationUserData,
      executeCreateBuffer, executeDestroyBuffer, executeDestroyImage,
      executeFreeMemory, destroyAllocation, executeCreateImage,
      executeCreateLostAllocation, executeAllocateMemory,
      executeAllocateMemoryForBufferOrImage, executeMapMemory,
      executeUnmapMemory, executeFlushAllocation,
      executeInvalidateAllocation, executeTouchAllocation,
      executeGetAllocationInfo, executeMakePoolAllocationsLost,
      validateFunctionParameterCount, warn_eq, warnShown_set_stats,
      FIRST_PARAM_INDEX]
  case allocateMemoryForBuffer =>
    have hm : ¬ 16 ≤ fields.length := by
      simpa [arityMatches, functionArity, FIRST_PARAM_INDEX] using hmis
    simp [dispatchFunction, hname, vmaFunctionName, hm,
      executeCreatePool, executeDestroyPool, executeSetAllocationUserData,
      executeCreateBuffer, executeDestroyBuffer, executeDestroyImage,
      executeFreeMemory, destroyAllocation, executeCreateImage,
      executeCreateLostAllocation, executeAllocateMemory,
      executeAllocateMemoryForBufferOrImage, executeMapMemory,
      executeUnmapMemory, executeFlushAllocation,
      executeInvalidateAllocation, executeTouchAllocation,
      executeGetAllocationInfo, executeMakePoolAllocationsLost,
      validateFunctionParameterCount, warn_eq, warnShown_set_stats,
      FIRST_PARAM_INDEX]
  case allocateMemoryForImage =>
    have hm : ¬ 16 ≤ fields.length := by
      simpa [arityMatches, functionArity, FIRST_PARAM_INDEX] using hmis
    simp [dispatchFunction, hname, vmaFunctionName, hm,
      executeCreatePool, executeDestroyPool, executeSetAllocationUserData,
      executeCreateBuffer, executeDestroyBuffer, executeDestroyImage,
      executeFreeMemory, destroyAllocation, executeCreateImage,
      executeCreateLostAllocation, executeAllocateMemory,
      executeAllocateMemoryForBufferOrImage, executeMapMemory,
      executeUnmapMemory, executeFlushAllocation,
      executeInvalidateAllocation, executeTouchAllocation,
      executeGetAllocationInfo, executeMakePoolAllocationsLost,
      validateFunctionParameterCount, warn_eq, warnShown_set_stats,
      FIRST_PARAM_INDEX]

/-- C3, counterexample.  "vmaCreateAllocator" is a recognized operation
name; a record carrying it with an extra parameter fails arity
validation, warns and makes no allocator call, but no per-operation
counter in Statistics increments: `vmaCreateAllocator` has no counter at
all (it is not a `VMA_FUNCTION`), so the counter total stays 0 instead
of incrementing by exactly 1 as the claim requires. -/
theorem c3_counterexample :
    ((executeLine (Config.mk .default true) (Env.mk true 1 2 3 4) initialState
        ["0", "0.0", "0", "vmaCreateAllocator", "x"]).2.filter
      (isWarnKind .paramCount)).length = 1 ∧
    (executeLine (Config.mk .default true) (Env.mk true 1 2 3 4) initialState
        ["0", "0.0", "0", "vmaCreateAllocator", "x"]).2.filter isCall = [] ∧
    (executeLine (Config.mk .default true) (Env.mk true 1 2 3 4) initialState
        ["0", "0.0", "0", "vmaCreateAllocator", "x"]).1.stats.totalFunctionCalls
      = 0 := by
  refine ⟨?_, ?_, ?_⟩ <;> decide

/-- C3, amended: for each of the 19 operations owning a Statistics
counter, a record naming that operation whose field count fails the
operation's arity check (fewer fields than the minimum for
unbound-last operations, or any count different from the exact
requirement for fixed-arity operations) produces exactly one arity
warning, no allocator call (the record's frame index is taken equal to
the current one, so the header makes no frame-boundary call either),
and an increment of exactly 1 on that operation's counter, all others
unchanged.  For the set-user-data operation the user-data feature must
be enabled: when disabled, that handler returns before arity
validation and warns nothing.  The allocator-lifecycle names
`vmaCreateAllocator` and `vmaDestroyAllocator`, which have no counter,
are excluded. -/
theorem c3_arity_mismatch (cfg : Config) (env : Env) (s : PlayerState)
    (f : VmaFunction) (fields : List String)
    (hud : f = .setAllocationUserData → cfg.userDataEnabled = true)
    (h4 : FIRST_PARAM_INDEX ≤ fields.length)
    (hname : getField fields 3 = vmaFunctionName f)
    (hmis : arityMatches f fields.length = false)
    (hfr : strRangeToUint 32 (getField fields 2) = some s.vmaFrameIndex) :
    ((executeLine cfg env s fields).2.filter (isWarnKind .paramCount)).length = 1 ∧
    (executeLine cfg env s fields).2.filter isCall = [] ∧
    (executeLine cfg env s fields).1.stats.functionCallCount f =
      s.stats.functionCallCount f + 1 ∧
    (∀ g, g ≠ f →
      (executeLine cfg env s fields).1.stats.functionCallCount g =
        s.stats.functionCallCount g) := by
  rw [executeLine_eq cfg env s _ h4]
  obtain ⟨hst, hpo, hal, hfrm, hcall, hpc⟩ := processHeader_spec cfg s _ hfr
  rw [dispatch_arity_fail cfg env _ f fields hud hmis hname]
  refine ⟨?_, ?_, ?_, ?_⟩
  · simp [List.filter_append, hpc, isWarnKind, List.filter]
  · simp [List.filter_append, hcall, isCall, List.filter]
  · simp [hst, Statistics.registerFunctionCall]
  · intro g hg
    simp [hst, Statistics.registerFunctionCall, hg]

/-- C3 witness: a 6-field `vmaDestroyPool` record — one parameter too
many for that fixed-arity operation. -/
theorem c3_arity_mismatch_witness :
    arityMatches .destroyPool
      (["0", "0.0", "0", "vmaDestroyPool", "1", "2"] : List String).length =
      false ∧
    getField ["0", "0.0", "0", "vmaDestroyPool", "1", "2"] 3 =
      vmaFunctionName .destroyPool ∧
    strRangeToUint 32
        (getField ["0", "0.0", "0", "vmaDestroyPool", "1", "2"] 2) =
      some initialState.vmaFrameIndex ∧
    (((executeLine (Config.mk .default true) (Env.mk true 1 2 3 4) initialState
        ["0", "0.0", "0", "vmaDestroyPool", "1", "2"]).2.filter
          (isWarnKind .paramCount)).length = 1 ∧
      (executeLine (Config.mk .default true) (Env.mk true 1 2 3 4) initialState
        ["0", "0.0", "0", "vmaDestroyPool", "1", "2"]).2.filter isCall = [] ∧
      (executeLine (Config.mk .default true) (Env.mk true 1 2 3 4) initialState
          ["0", "0.0", "0", "vmaDestroyPool", "1", "2"]).1.stats.functionCallCount
            .destroyPool =
        initialState.stats.functionCallCount .destroyPool + 1) := by
  have h := c3_arity_mismatch (Config.mk .default true) (Env.mk true 1 2 3 4)
    initialState .destroyPool ["0", "0.0", "0", "vmaDestroyPool", "1", "2"]
    (by decide) (by decide) (by decide) (by decide) (by decide)
  exact ⟨by decide, by decide, by decide, h.1, h.2.1, h.2.2.1⟩

end VmaReplay

namespace VmaReplay

/-! ### C7: unknown operation names -/

/-- The operation names recognized by the dispatch chain. -/
def knownFunctionNames : List String :=
  ["vmaCreateAllocator", "vmaDestroyAllocator", "vmaCreatePool",
   "vmaDestroyPool", "vmaSetAllocationUserData", "vmaCreateBuffer",
   "vmaDestroyBuffer", "vmaCreateImage", "vmaDestroyImage", "vmaFreeMemory",
   "vmaCreateLostAllocation", "vmaAllocateMemory", "vmaAllocateMemoryForBuffer",
   "vmaAllocateMemoryForImage", "vmaMapMemory", "vmaUnmapMemory",
   "vmaFlushAllocation", "vmaInvalidateAllocation", "vmaTouchAllocation",
   "vmaGetAllocationInfo", "vmaMakePoolAllocationsLost"]

theorem dispatch_unknown (cfg : Config) (env : Env) (s1 : PlayerState)
    (fields : List String)
    (hname : ¬ getField fields 3 ∈ knownFunctionNames) :
    dispatchFunction cfg env s1 fields =
      ({ s1 with warningCount := s1.warningCount + 1 },
       [Event.warn .unknownFunction (warnShown cfg s1)]) := by
  simp [knownFunctionNames] at hname
  obtain ⟨h1, h2, h3, h4, h5, h6, h7, h8, h9, h10, h11, h12, h13, h14, h15,
    h16, h17, h18, h19, h20, h21⟩ := hname
  simp [dispatchFunction, h1, h2, h3, h4, h5, h6, h7, h8, h9, h10, h11, h12,
    h13, h14, h15, h16, h17, h18, h19, h20, h21, warn_eq]

theorem processHeader_preserves (cfg : Config) (s : PlayerState)
    (fields : List String) :
    (processHeader cfg s fields).1.stats = s.stats ∧
    (processHeader cfg s fields).1.pools = s.pools ∧
    (processHeader cfg s fields).1.allocations = s.allocations ∧
    (processHeader cfg s fields).2.filter isCall =
      (processHeader cfg s fields).2.filter isFrameCall ∧
    (processHeader cfg s fields).2.filter (isWarnKind .unknownFunction) = [] := by
  unfold processHeader
  rcases hthread : strRangeToUint 32 (getField fields 0) with _ | tid
  · rcases hfr : strRangeToUint 32 (getField fields 2) with _ | v
    · simp [hthread, hfr, warn_eq, isCall, isFrameCall, isWarnKind, List.filter]
    · by_cases hv : v = ({ s with
          warningCount := s.warningCount + 1 } : PlayerState).vmaFrameIndex <;>
        simp [hthread, hfr, warn_eq, hv, isCall, isFrameCall, isWarnKind,
          List.filter]
  · rcases hfound : s.threads tid with _ | c <;>
      rcases hfr : strRangeToUint 32 (getField fields 2) with _ | v
    · simp [hthread, hfound, hfr, warn_eq, isCall, isFrameCall, isWarnKind,
        List.filter]
    · by_cases hv : v = s.vmaFrameIndex <;>
        simp [hthread, hfound, hfr, warn_eq, hv, isCall, isFrameCall,
          isWarnKind, List.filter]
    · simp [hthread, hfound, hfr, warn_eq, isCall, isFrameCall, isWarnKind,
        List.filter]
    · by_cases hv : v = s.vmaFrameIndex <;>
        simp [hthread, hfound, hfr, warn_eq, hv, isCall, isFrameCall,
          isWarnKind, List.filter]

/-- C7, counterexample.  The claim says a record with an unknown
operation name causes no side effects: no target-allocator call and no
change to the per-thread counters or the current frame index.  But the
header of every ≥4-field record is processed before the name is
resolved: on the record `5,0.0,7,vmaFooBar` the engine calls
`vmaSetCurrentFrameIndex(7)`, sets the current frame index to 7 and
increments thread 5's call counter, before warning about the unknown
name. -/
theorem c7_counterexample :
    Event.call (.setCurrentFrameIndex 7) ∈
      (executeLine (Config.mk .default true) (Env.mk true 1 2 3 4) initialState
        ["5", "0.0", "7", "vmaFooBar"]).2 ∧
    (executeLine (Config.mk .default true) (Env.mk true 1 2 3 4) initialState
        ["5", "0.0", "7", "vmaFooBar"]).1.vmaFrameIndex = 7 ∧
    initialState.vmaFrameIndex = 0 ∧
    (executeLine (Config.mk .default true) (Env.mk true 1 2 3 4) initialState
        ["5", "0.0", "7", "vmaFooBar"]).1.threads 5 = some 1 ∧
    initialState.threads 5 = none ∧
    Event.warn .unknownFunction true ∈
      (executeLine (Config.mk .default true) (Env.mk true 1 2 3 4) initialState
        ["5", "0.0", "7", "vmaFooBar"]).2 := by
  refine ⟨?_, ?_, ?_, ?_, ?_, ?_⟩ <;> decide

/-- C7, amended: a ≥4-field record whose operation name is unrecognized
produces exactly one unknown-operation warning and no operation dispatch:
the handle registry and statistics are unchanged and the only
target-allocator call that can occur is the header's frame-boundary
notification (the header still updates the per-thread counters and the
current frame index before the name is examined). -/
theorem c7_unknown_op (cfg : Config) (env : Env) (s : PlayerState)
    (fields : List String)
    (h4 : FIRST_PARAM_INDEX ≤ fields.length)
    (hname : ¬ getField fields 3 ∈ knownFunctionNames) :
    ((executeLine cfg env s fields).2.filter (isWarnKind .unknownFunction)).length = 1 ∧
    (executeLine cfg env s fields).1.pools = s.pools ∧
    (executeLine cfg env s fields).1.allocations = s.allocations ∧
    (executeLine cfg env s fields).1.stats = s.stats ∧
    (executeLine cfg env s fields).2.filter isCall =
      (executeLine cfg env s fields).2.filter isFrameCall := by
  rw [executeLine_eq cfg env s fields h4]
  obtain ⟨hst, hpo, hal, hcall, hunk⟩ := processHeader_preserves cfg s fields
  rw [dispatch_unknown cfg env _ fields hname]
  refine ⟨?_, by simp [hpo], by simp [hal], by simp [hst], ?_⟩
  · simp [List.filter_append, hunk, isWarnKind, List.filter]
  · simp [List.filter_append, hcall, isCall, isFrameCall, List.filter]

/-- C7 witness: the record `0,0.0,0,vmaFooBar`. -/
theorem c7_unknown_op_witness :
    FIRST_PARAM_INDEX ≤ (["0", "0.0", "0", "vmaFooBar"] : List String).length ∧
    ¬ getField ["0", "0.0", "0", "vmaFooBar"] 3 ∈ knownFunctionNames ∧
    (((executeLine (Config.mk .default true) (Env.mk true 1 2 3 4) initialState
          ["0", "0.0", "0", "vmaFooBar"]).2.filter
        (isWarnKind .unknownFunction)).length = 1 ∧
      (executeLine (Config.mk .default true) (Env.mk true 1 2 3 4) initialState
        ["0", "0.0", "0", "vmaFooBar"]).1.pools = initialState.pools ∧
      (executeLine (Config.mk .default true) (Env.mk true 1 2 3 4) initialState
        ["0", "0.0", "0", "vmaFooBar"]).1.allocations = initialState.allocations ∧
      (executeLine (Config.mk .default true) (Env.mk true 1 2 3 4) initialState
        ["0", "0.0", "0", "vmaFooBar"]).1.stats = initialState.stats ∧
      (executeLine (Config.mk .default true) (Env.mk true 1 2 3 4) initialState
          ["0", "0.0", "0", "vmaFooBar"]).2.filter isCall =
        (executeLine (Config.mk .default true) (Env.mk true 1 2 3 4) initialState
          ["0", "0.0", "0", "vmaFooBar"]).2.filter isFrameCall) :=
  ⟨by decide, by decide,
   c7_unknown_op (Config.mk .default true) (Env.mk true 1 2 3 4) initialState
     ["0", "0.0", "0", "vmaFooBar"] (by decide) (by decide)⟩

end VmaReplay

namespace VmaReplay

/-! ### C9: user-data handling -/

/-- C9, counterexample.  The claim says that with the user-data toggle
disabled, every operation that would pass user data passes null,
including set-user-data operations.  With the toggle disabled a
`vmaSetAllocationUserData` record makes no allocator call at all (the
handler returns immediately), rather than calling with null: the same
record with the toggle enabled does call the allocator. -/
theorem c9_counterexample :
    (executeSetAllocationUserData (Config.mk .default false) (Env.mk true 1 2 3 4)
        { initialState with
            allocations := HMap.empty.insert 5 (Allocation.mk 0 7 0 0) }
        ["0", "0.0", "0", "vmaSetAllocationUserData", "5", "1234"]).2 = [] ∧
    Event.call (.setAllocationUserData 7 (.ptr 0x1234)) ∈
      (executeSetAllocationUserData (Config.mk .default true) (Env.mk true 1 2 3 4)
        { initialState with
            allocations := HMap.empty.insert 5 (Allocation.mk 0 7 0 0) }
        ["0", "0.0", "0", "vmaSetAllocationUserData", "5", "1234"]).2 := by
  refine ⟨?_, ?_⟩ <;> decide

/-- C9, amended: a pointer-mode user-data parse failure warns and
proceeds with a null user-data pointer — creation still happens, is
registered, and the creation call carries null user data; with the
user-data toggle disabled, `PrepareUserData` yields null with no warning
for creation-style operations, while a set-user-data record skips the
allocator call entirely instead of passing null. -/
theorem c9_user_data (cfgOff cfgOn : Config) (env : Env) (s : PlayerState)
    (flags : Nat) (col rest : String)
    (t0 t1 t2 t3 p0 p1 p2 p3 p4 p5 p6 p7 p8 p9 p10 ud : String)
    (v0 v1 v2 v3 acFlags v5 v6 v7 v8 origPtrV : Nat)
    (hoff : cfgOff.userDataEnabled = false)
    (hon : cfgOn.userDataEnabled = true)
    (hmode : flags &&& VMA_ALLOCATION_CREATE_USER_DATA_COPY_STRING_BIT = 0)
    (hcol : strRangeToPtr col = none)
    (hp0 : strRangeToUint 32 p0 = some v0)
    (hp1 : strRangeToUint 64 p1 = some v1)
    (hp2 : strRangeToUint 32 p2 = some v2)
    (hp3 : strRangeToUint 32 p3 = some v3)
    (hp4 : strRangeToUint 32 p4 = some acFlags)
    (hmode2 : acFlags &&& VMA_ALLOCATION_CREATE_USER_DATA_COPY_STRING_BIT = 0)
    (hp5 : strRangeToUint 32 p5 = some v5)
    (hp6 : strRangeToUint 32 p6 = some v6)
    (hp7 : strRangeToUint 32 p7 = some v7)
    (hp8 : strRangeToUint 32 p8 = some v8)
    (hp9 : strRangeToPtr p9 = some 0)
    (hp10 : strRangeToPtr p10 = some origPtrV)
    (hud2 : strRangeToPtr ud = none)
    (hptr : origPtrV ≠ 0)
    (hfresh : s.allocations origPtrV = none)
    (henv : env.success = true) :
    prepareUserData cfgOff s flags col rest = (s, [], .ptr 0, true) ∧
    prepareUserData cfgOn s flags col rest =
      ({ s with warningCount := s.warningCount + 1 },
       [Event.warn .invalidUserData (warnShown cfgOn s)], .ptr 0, false) ∧
    (Event.call (.createBuffer (.ptr 0)) ∈
      (executeCreateBuffer cfgOn env s
        [t0, t1, t2, t3, p0, p1, p2, p3, p4, p5, p6, p7, p8, p9, p10, ud]).2 ∧
     ((executeCreateBuffer cfgOn env s
        [t0, t1, t2, t3, p0, p1, p2, p3, p4, p5, p6, p7, p8, p9, p10, ud]).2.filter
        (isWarnKind .invalidUserData)).length = 1 ∧
     (executeCreateBuffer cfgOn env s
        [t0, t1, t2, t3, p0, p1, p2, p3, p4, p5, p6, p7, p8, p9, p10, ud]).1.allocations
        origPtrV =
       some (Allocation.mk acFlags env.liveAllocation env.liveBuffer 0)) ∧
    executeSetAllocationUserData cfgOff env s [t0, t1, t2, t3, p0, ud] =
      ({ s with stats := s.stats.registerFunctionCall .setAllocationUserData }, []) := by
  refine ⟨?_, ?_, ?_, ?_⟩
  · simp [prepareUserData, hoff]
  · simp [prepareUserData, hon, hmode, hcol, warn_eq]
  · simp only [executeCreateBuffer, validateFunctionParameterCount,
      FIRST_PARAM_INDEX, getField, List.getD, List.length]
    simp [parseCreateBufferParams, getField, FIRST_PARAM_INDEX, List.getD,
      hp0, hp1, hp2, hp3, hp4, hp5, hp6, hp7, hp8, hp9, hp10,
      findPool, prepareUserData, hon, hmode2, hud2, warn_eq,
      addAllocation, hptr, hfresh, henv, isWarnKind, List.filter]
  · simp [executeSetAllocationUserData, hoff]

/-- C9 witness: a buffer creation whose trailing user-data field is the
non-hexadecimal text "zz". -/
theorem c9_user_data_witness :
    strRangeToPtr "zz" = none ∧
    (prepareUserData (Config.mk .default false) initialState 0 "zz" "zz" =
      (initialState, [], .ptr 0, true) ∧
     Event.call (.createBuffer (.ptr 0)) ∈
      (executeCreateBuffer (Config.mk .default true) (Env.mk true 1 2 3 4)
        initialState
        ["0", "0.0", "0", "vmaCreateBuffer", "0", "0", "0", "0", "0", "0",
         "0", "0", "0", "0", "5", "zz"]).2 ∧
     executeSetAllocationUserData (Config.mk .default false) (Env.mk true 1 2 3 4)
        initialState ["0", "0.0", "0", "vmaSetAllocationUserData", "0", "zz"] =
      ({ initialState with
          stats := initialState.stats.registerFunctionCall .setAllocationUserData },
       [])) := by
  have h := c9_user_data (Config.mk .default false) (Config.mk .default true)
    (Env.mk true 1 2 3 4) initialState 0 "zz" "zz"
    "0" "0.0" "0" "vmaCreateBuffer" "0" "0" "0" "0" "0" "0" "0" "0" "0" "0" "5" "zz"
    0 0 0 0 0 0 0 0 0 5
    rfl rfl (by decide) (by decide) (by decide) (by decide) (by decide)
    (by decide) (by decide) (by decide) (by decide) (by decide) (by decide)
    (by decide) (by decide) (by decide) (by decide) (by decide) rfl rfl
  exact ⟨by decide, h.1, h.2.2.1.1, h.2.2.2⟩

end VmaReplay

namespace VmaReplay

/-! ### C8: the warning funnel -/

/-- The warning-funnel invariant for one processing step: the warning
counter advances by exactly the number of warnings routed through
`IssueWarning`, and any directly printed message is the live map-failure
message. -/
def WarnFunnel (s : PlayerState) (r : PlayerState × List Event) : Prop :=
  r.1.warningCount = s.warningCount + (r.2.filter isWarn).length ∧
  ∀ e ∈ r.2.filter isRawMsg, e = Event.rawMsg WarnKind.mapFailed

/-- The strict funnel invariant: as `WarnFunnel`, with no directly
printed message at all. -/
def WarnFunnelStrict (s : PlayerState) (r : PlayerState × List Event) : Prop :=
  r.1.warningCount = s.warningCount + (r.2.filter isWarn).length ∧
  r.2.filter isRawMsg = []

theorem WarnFunnelStrict.toFunnel {s : PlayerState} {r : PlayerState × List Event}
    (h : WarnFunnelStrict s r) : WarnFunnel s r := by
  refine ⟨h.1, ?_⟩
  rw [h.2]
  intro e he
  cases he

theorem validate_cases (cfg : Config) (s : PlayerState) (n e : Nat) (b : Bool) :
    validateFunctionParameterCount cfg s n e b = (s, [], true) ∨
    validateFunctionParameterCount cfg s n e b =
      ({ s with warningCount := s.warningCount + 1 },
       [Event.warn .paramCount (warnShown cfg s)], false) := by
  unfold validateFunctionParameterCount
  simp only [warn_eq]
  split <;> split <;>
    first
    | exact Or.inl rfl
    | exact Or.inr rfl

theorem findPool_cases (cfg : Config) (s : PlayerState) (p : Nat) :
    ((findPool cfg s p).1 = s ∧ (findPool cfg s p).2.1 = []) ∨
    findPool cfg s p =
      ({ s with warningCount := s.warningCount + 1 },
       [Event.warn .poolNotFound (warnShown cfg s)], 0) := by
  unfold findPool
  simp only [warn_eq]
  repeat' split
  all_goals
    first
    | exact Or.inl ⟨rfl, rfl⟩
    | exact Or.inr rfl

theorem prepare_cases (cfg : Config) (s : PlayerState) (fl : Nat)
    (col rest : String) :
    ((prepareUserData cfg s fl col rest).1 = s ∧
      (prepareUserData cfg s fl col rest).2.1 = []) ∨
    prepareUserData cfg s fl col rest =
      ({ s with warningCount := s.warningCount + 1 },
       [Event.warn .invalidUserData (warnShown cfg s)], .ptr 0, false) := by
  unfold prepareUserData
  simp only [warn_eq]
  repeat' split
  all_goals
    first
    | exact Or.inl ⟨rfl, rfl⟩
    | exact Or.inr rfl

theorem wfs_addAllocation (cfg : Config) (s : PlayerState) (p : Nat) (res : Bool)
    (d : Allocation) : WarnFunnelStrict s (addAllocation cfg s p res d) := by
  unfold WarnFunnelStrict
  simp only [addAllocation, warn_eq]
  repeat' split
  all_goals simp [isWarn, isRawMsg, List.filter]

theorem wfs_reconcilePool (cfg : Config) (s : PlayerState) (p : Nat) (res : Bool)
    (d : Pool) : WarnFunnelStrict s (reconcilePool cfg s p res d) := by
  unfold WarnFunnelStrict
  simp only [reconcilePool, warn_eq]
  repeat' split
  all_goals simp [isWarn, isRawMsg, List.filter]

end VmaReplay

namespace VmaReplay

theorem wfs_destroyAllocation (cfg : Config) (env : Env) (s : PlayerState)
    (fields : List String) :
    WarnFunnelStrict s (destroyAllocation cfg env s fields) := by
  unfold WarnFunnelStrict
  simp only [destroyAllocation, validateFunctionParameterCount, warn_eq]
  repeat' split
  all_goals simp [isWarn, isRawMsg, List.filter]

theorem wfs_executeDestroyPool (cfg : Config) (env : Env) (s : PlayerState)
    (fields : List String) :
    WarnFunnelStrict s (executeDestroyPool cfg env s fields) := by
  unfold WarnFunnelStrict
  simp only [executeDestroyPool, validateFunctionParameterCount, warn_eq]
  repeat' split
  all_goals simp [isWarn, isRawMsg, List.filter]

theorem wfs_executeSetAllocationUserData (cfg : Config) (env : Env)
    (s : PlayerState) (fields : List String) :
    WarnFunnelStrict s (executeSetAllocationUserData cfg env s fields) := by
  unfold WarnFunnelStrict
  simp only [executeSetAllocationUserData, validateFunctionParameterCount,
    prepareUserData, warn_eq]
  repeat' split
  all_goals simp [isWarn, isRawMsg, List.filter]

theorem wfs_executeUnmapMemory (cfg : Config) (env : Env) (s : PlayerState)
    (fields : List String) :
    WarnFunnelStrict s (executeUnmapMemory cfg env s fields) := by
  unfold WarnFunnelStrict
  simp only [executeUnmapMemory, validateFunctionParameterCount, warn_eq]
  repeat' split
  all_goals simp [isWarn, isRawMsg, List.filter]

theorem wfs_executeTouchAllocation (cfg : Config) (env : Env) (s : PlayerState)
    (fields : List String) :
    WarnFunnelStrict s (executeTouchAllocation cfg env s fields) := by
  unfold WarnFunnelStrict
  simp only [executeTouchAllocation, validateFunctionParameterCount, warn_eq]
  repeat' split
  all_goals simp [isWarn, isRawMsg, List.filter]

theorem wfs_executeGetAllocationInfo (cfg : Config) (env : Env) (s : PlayerState)
    (fields : List String) :
    WarnFunnelStrict s (executeGetAllocationInfo cfg env s fields) := by
  unfold WarnFunnelStrict
  simp only [executeGetAllocationInfo, validateFunctionParameterCount, warn_eq]
  repeat' split
  all_goals simp [isWarn, isRawMsg, List.filter]

theorem wfs_executeMakePoolAllocationsLost (cfg : Config) (env : Env)
    (s : PlayerState) (fields : List String) :
    WarnFunnelStrict s (executeMakePoolAllocationsLost cfg env s fields) := by
  unfold WarnFunnelStrict
  simp only [executeMakePoolAllocationsLost, validateFunctionParameterCount,
    warn_eq]
  repeat' split
  all_goals simp [isWarn, isRawMsg, List.filter]

theorem wfs_executeFlushAllocation (cfg : Config) (env : Env) (s : PlayerState)
    (fields : List String) :
    WarnFunnelStrict s (executeFlushAllocation cfg env s fields) := by
  unfold WarnFunnelStrict
  simp only [executeFlushAllocation, validateFunctionParameterCount, warn_eq]
  repeat' split
  all_goals simp [isWarn, isRawMsg, List.filter]

theorem wfs_executeInvalidateAllocation (cfg : Config) (env : Env)
    (s : PlayerState) (fields : List String) :
    WarnFunnelStrict s (executeInvalidateAllocation cfg env s fields) := by
  unfold WarnFunnelStrict
  simp only [executeInvalidateAllocation, validateFunctionParameterCount,
    warn_eq]
  repeat' split
  all_goals simp [isWarn, isRawMsg, List.filter]

/-- The map handler satisfies the non-strict funnel: its only direct
print is the map-failure message. -/
theorem wf_executeMapMemory (cfg : Config) (env : Env) (s : PlayerState)
    (fields : List String) :
    WarnFunnel s (executeMapMemory cfg env s fields) := by
  unfold WarnFunnel
  simp only [executeMapMemory, validateFunctionParameterCount, warn_eq]
  repeat' split
  all_goals simp [isWarn, isRawMsg, List.filter]

end VmaReplay

namespace VmaReplay

theorem wfs_executeCreatePool (cfg : Config) (env : Env) (s : PlayerState)
    (fields : List String) :
    WarnFunnelStrict s (executeCreatePool cfg env s fields) := by
  unfold WarnFunnelStrict
  simp only [executeCreatePool, validateFunctionParameterCount, reconcilePool,
    warn_eq]
  repeat' split
  all_goals simp [isWarn, isRawMsg, List.filter]

theorem wfs_executeCreateLostAllocation (cfg : Config) (env : Env)
    (s : PlayerState) (fields : List String) :
    WarnFunnelStrict s (executeCreateLostAllocation cfg env s fields) := by
  unfold WarnFunnelStrict
  simp only [executeCreateLostAllocation, validateFunctionParameterCount,
    addAllocation, warn_eq]
  repeat' split
  all_goals simp [isWarn, isRawMsg, List.filter]

end VmaReplay

namespace VmaReplay

set_option maxHeartbeats 1000000 in
/-- `ExecuteCreateBuffer` satisfies the strict funnel, composing the
funnels of parameter validation, pool lookup, user-data preparation and
allocation registration. -/
theorem wfs_executeCreateBuffer (cfg : Config) (env : Env) (s : PlayerState)
    (fields : List String) :
    WarnFunnelStrict s (executeCreateBuffer cfg env s fields) := by
  unfold WarnFunnelStrict executeCreateBuffer
  rcases validate_cases cfg
      { s with stats := s.stats.registerFunctionCall .createBuffer }
      fields.length 12 true with hval | hval <;>
    simp only [hval]
  case inr => simp [isWarn, isRawMsg, List.filter]
  case inl =>
  rcases hp : parseCreateBufferParams fields with _ |
    ⟨bufUsage, acFlags, origPool, origPtr⟩
  case none => simp [warn_eq, isWarn, isRawMsg, List.filter]
  case some =>
  obtain ⟨⟨sF, evsF, pv⟩, hfp⟩ :
      ∃ r, findPool cfg
        { s with stats := s.stats.registerFunctionCall .createBuffer }
        origPool = r := ⟨_, rfl⟩
  have hF : sF.warningCount = s.warningCount + (evsF.filter isWarn).length ∧
      evsF.filter isRawMsg = [] := by
    rcases findPool_cases cfg
        { s with stats := s.stats.registerFunctionCall .createBuffer }
        origPool with ⟨hA, hB⟩ | hE
    · rw [hfp] at hA hB
      simp only at hA hB
      subst hA hB
      simp
    · rw [hfp] at hE
      injection hE with hE1 hE2
      injection hE2 with hE2 hE3
      subst hE1 hE2
      simp [isWarn, isRawMsg, List.filter]
  simp only [hfp]
  obtain ⟨⟨sU, evsU, u, bU⟩, hup⟩ :
      ∃ r, (if FIRST_PARAM_INDEX + 11 < fields.length then
          prepareUserData cfg sF acFlags
            (getField fields (FIRST_PARAM_INDEX + 11))
            (lineFrom fields (FIRST_PARAM_INDEX + 11))
        else (sF, [], .ptr 0, true)) = r := ⟨_, rfl⟩
  have hU : sU.warningCount = sF.warningCount + (evsU.filter isWarn).length ∧
      evsU.filter isRawMsg = [] := by
    by_cases hc : FIRST_PARAM_INDEX + 11 < fields.length
    · rw [if_pos hc] at hup
      rcases prepare_cases cfg sF acFlags
          (getField fields (FIRST_PARAM_INDEX + 11))
          (lineFrom fields (FIRST_PARAM_INDEX + 11)) with ⟨hA, hB⟩ | hE
      · rw [hup] at hA hB
        simp only at hA hB
        subst hA hB
        simp
      · rw [hup] at hE
        injection hE with hE1 hE2
        injection hE2 with hE2 hE3
        subst hE1 hE2
        simp [isWarn, isRawMsg, List.filter]
    · rw [if_neg hc] at hup
      injection hup with hE1 hE2
      injection hE2 with hE2 hE3
      subst hE1 hE2
      simp
  simp only [hup]
  obtain ⟨⟨sA, evsA⟩, haa⟩ :
      ∃ r, addAllocation cfg
        { sU with stats := sU.stats.registerCreateBuffer bufUsage }
        origPtr env.success
        { allocationFlags := acFlags
          allocation := if env.success then env.liveAllocation else 0
          buffer := if env.success then env.liveBuffer else 0
          image := 0 } = r := ⟨_, rfl⟩
  have hA : sA.warningCount = sU.warningCount + (evsA.filter isWarn).length ∧
      evsA.filter isRawMsg = [] := by
    have h := wfs_addAllocation cfg
      { sU with stats := sU.stats.registerCreateBuffer bufUsage }
      origPtr env.success
      { allocationFlags := acFlags
        allocation := if env.success then env.liveAllocation else 0
        buffer := if env.success then env.liveBuffer else 0
        image := 0 }
    rw [haa] at h
    exact h
  simp only [haa]
  refine ⟨?_, ?_⟩
  · simp [List.filter_append, hA.1, hF.1, hU.1, isWarn, List.filter]
    omega
  · simp [List.filter_append, hA.2, hF.2, hU.2, isRawMsg, List.filter]

end VmaReplay

namespace VmaReplay

set_option maxHeartbeats 1000000 in
theorem wfs_executeCreateImage (cfg : Config) (env : Env) (s : PlayerState)
    (fields : List String) :
    WarnFunnelStrict s (executeCreateImage cfg env s fields) := by
  unfold WarnFunnelStrict executeCreateImage
  rcases validate_cases cfg
      { s with stats := s.stats.registerFunctionCall .createImage }
      fields.length 21 true with hval | hval <;>
    simp only [hval]
  case inr => simp [isWarn, isRawMsg, List.filter]
  case inl =>
  rcases hp : parseCreateImageParams fields with _ |
    ⟨tiling, imgUsage, acFlags, origPool, origPtr⟩
  case none => simp [warn_eq, isWarn, isRawMsg, List.filter]
  case some =>
  obtain ⟨⟨sF, evsF, pv⟩, hfp⟩ :
      ∃ r, findPool cfg
        { s with stats := s.stats.registerFunctionCall .createImage }
        origPool = r := ⟨_, rfl⟩
  have hF : sF.warningCount = s.warningCount + (evsF.filter isWarn).length ∧
      evsF.filter isRawMsg = [] := by
    rcases findPool_cases cfg
        { s with stats := s.stats.registerFunctionCall .createImage }
        origPool with ⟨hA, hB⟩ | hE
    · rw [hfp] at hA hB
      simp only at hA hB
      subst hA hB
      simp
    · rw [hfp] at hE
      injection hE with hE1 hE2
      injection hE2 with hE2 hE3
      subst hE1 hE2
      simp [isWarn, isRawMsg, List.filter]
  simp only [hfp]
  obtain ⟨⟨sU, evsU, u, bU⟩, hup⟩ :
      ∃ r, (if FIRST_PARAM_INDEX + 20 < fields.length then
          prepareUserData cfg sF acFlags
            (getField fields (FIRST_PARAM_INDEX + 20))
            (lineFrom fields (FIRST_PARAM_INDEX + 20))
        else (sF, [], .ptr 0, true)) = r := ⟨_, rfl⟩
  have hU : sU.warningCount = sF.warningCount + (evsU.filter isWarn).length ∧
      evsU.filter isRawMsg = [] := by
    by_cases hc : FIRST_PARAM_INDEX + 20 < fields.length
    · rw [if_pos hc] at hup
      rcases prepare_cases cfg sF acFlags
          (getField fields (FIRST_PARAM_INDEX + 20))
          (lineFrom fields (FIRST_PARAM_INDEX + 20)) with ⟨hA, hB⟩ | hE
      · rw [hup] at hA hB
        simp only at hA hB
        subst hA hB
        simp
      · rw [hup] at hE
        injection hE with hE1 hE2
        injection hE2 with hE2 hE3
        subst hE1 hE2
        simp [isWarn, isRawMsg, List.filter]
    · rw [if_neg hc] at hup
      injection hup with hE1 hE2
      injection hE2 with hE2 hE3
      subst hE1 hE2
      simp
  simp only [hup]
  obtain ⟨⟨sA, evsA⟩, haa⟩ :
      ∃ r, addAllocation cfg
        { sU with stats := sU.stats.registerCreateImage imgUsage tiling }
        origPtr env.success
        { allocationFlags := acFlags
          allocation := if env.success then env.liveAllocation else 0
          buffer := 0
          image := if env.success then env.liveImage else 0 } = r := ⟨_, rfl⟩
  have hA : sA.warningCount = sU.warningCount + (evsA.filter isWarn).length ∧
      evsA.filter isRawMsg = [] := by
    have h := wfs_addAllocation cfg
      { sU with stats := sU.stats.registerCreateImage imgUsage tiling }
      origPtr env.success
      { allocationFlags := acFlags
        allocation := if env.success then env.liveAllocation else 0
        buffer := 0
        image := if env.success then env.liveImage else 0 }
    rw [haa] at h
    exact h
  simp only [haa]
  refine ⟨?_, ?_⟩
  · simp [List.filter_append, hA.1, hF.1, hU.1, isWarn, List.filter]
    omega
  · simp [List.filter_append, hA.2, hF.2, hU.2, isRawMsg, List.filter]

set_option maxHeartbeats 1000000 in
theorem wfs_executeAllocateMemory (cfg : Config) (env : Env) (s : PlayerState)
    (fields : List String) :
    WarnFunnelStrict s (executeAllocateMemory cfg env s fields) := by
  unfold WarnFunnelStrict executeAllocateMemory
  rcases validate_cases cfg
      { s with stats := s.stats.registerFunctionCall .allocateMemory }
      fields.length 11 true with hval | hval <;>
    simp only [hval]
  case inr => simp [isWarn, isRawMsg, List.filter]
  case inl =>
  rcases hp : parseAllocateMemoryParams fields with _ |
    ⟨acFlags, origPool, origPtr⟩
  case none => simp [warn_eq, isWarn, isRawMsg, List.filter]
  case some =>
  obtain ⟨⟨sF, evsF, pv⟩, hfp⟩ :
      ∃ r, findPool cfg
        { s with stats := s.stats.registerFunctionCall .allocateMemory }
        origPool = r := ⟨_, rfl⟩
  have hF : sF.warningCount = s.warningCount + (evsF.filter isWarn).length ∧
      evsF.filter isRawMsg = [] := by
    rcases findPool_cases cfg
        { s with stats := s.stats.registerFunctionCall .allocateMemory }
        origPool with ⟨hA, hB⟩ | hE
    · rw [hfp] at hA hB
      simp only at hA hB
      subst hA hB
      simp
    · rw [hfp] at hE
      injection hE with hE1 hE2
      injection hE2 with hE2 hE3
      subst hE1 hE2
      simp [isWarn, isRawMsg, List.filter]
  simp only [hfp]
  obtain ⟨⟨sU, evsU, u, bU⟩, hup⟩ :
      ∃ r, (if FIRST_PARAM_INDEX + 10 < fields.length then
          prepareUserData cfg sF acFlags
            (getField fields (FIRST_PARAM_INDEX + 10))
            (lineFrom fields (FIRST_PARAM_INDEX + 10))
        else (sF, [], .ptr 0, true)) = r := ⟨_, rfl⟩
  have hU : sU.warningCount = sF.warningCount + (evsU.filter isWarn).length ∧
      evsU.filter isRawMsg = [] := by
    by_cases hc : FIRST_PARAM_INDEX + 10 < fields.length
    · rw [if_pos hc] at hup
      rcases prepare_cases cfg sF acFlags
          (getField fields (FIRST_PARAM_INDEX + 10))
          (lineFrom fields (FIRST_PARAM_INDEX + 10)) with ⟨hA, hB⟩ | hE
      · rw [hup] at hA hB
        simp only at hA hB
        subst hA hB
        simp
      · rw [hup] at hE
        injection hE with hE1 hE2
        injection hE2 with hE2 hE3
        subst hE1 hE2
        simp [isWarn, isRawMsg, List.filter]
    · rw [if_neg hc] at hup
      injection hup with hE1 hE2
      injection hE2 with hE2 hE3
      subst hE1 hE2
      simp
  simp only [hup]
  obtain ⟨⟨sA, evsA⟩, haa⟩ :
      ∃ r, addAllocation cfg
        { sU with stats := sU.stats.registerCreateAllocation }
        origPtr env.success
        { allocationFlags := acFlags
          allocation := if env.success then env.liveAllocation else 0
          buffer := 0
          image := 0 } = r := ⟨_, rfl⟩
  have hA : sA.warningCount = sU.warningCount + (evsA.filter isWarn).length ∧
      evsA.filter isRawMsg = [] := by
    have h := wfs_addAllocation cfg
      { sU with stats := sU.stats.registerCreateAllocation }
      origPtr env.success
      { allocationFlags := acFlags
        allocation := if env.success then env.liveAllocation else 0
        buffer := 0
        image := 0 }
    rw [haa] at h
    exact h
  simp only [haa]
  refine ⟨?_, ?_⟩
  · simp [List.filter_append, hA.1, hF.1, hU.1, isWarn, List.filter]
    omega
  · simp [List.filter_append, hA.2, hF.2, hU.2, isRawMsg, List.filter]

end VmaReplay

namespace VmaReplay

set_option maxHeartbeats 1000000 in
theorem wfs_executeAllocateMemoryForBufferOrImage (cfg : Config) (env : Env)
    (s : PlayerState) (fields : List String) (objType : ObjectType) :
    WarnFunnelStrict s
      (executeAllocateMemoryForBufferOrImage cfg env s fields objType) := by
  unfold WarnFunnelStrict executeAllocateMemoryForBufferOrImage
  obtain ⟨s0, hs0, hwc⟩ : ∃ s0 : PlayerState,
      (match objType with
        | .buffer =>
            { s with stats := s.stats.registerFunctionCall .allocateMemoryForBuffer }
        | .image =>
            { s with stats := s.stats.registerFunctionCall .allocateMemoryForImage })
        = s0 ∧
      s0.warningCount = s.warningCount :=
    ⟨_, rfl, by cases objType <;> rfl⟩
  simp only [hs0]
  rcases validate_cases cfg s0 fields.length 13 true with hval | hval <;>
    simp only [hval]
  case inr => simp [isWarn, isRawMsg, List.filter, hwc]
  case inl =>
  rcases hp : parseAllocateForParams fields with _ |
    ⟨acFlags0, requiresDedicated, prefersDedicated, origPool, origPtr⟩
  case none => simp [warn_eq, isWarn, isRawMsg, List.filter, hwc]
  case some =>
  obtain ⟨⟨sF, evsF, pv⟩, hfp⟩ :
      ∃ r, findPool cfg s0 origPool = r := ⟨_, rfl⟩
  have hF : sF.warningCount = s0.warningCount + (evsF.filter isWarn).length ∧
      evsF.filter isRawMsg = [] := by
    rcases findPool_cases cfg s0 origPool with ⟨hA, hB⟩ | hE
    · rw [hfp] at hA hB
      simp only at hA hB
      subst hA hB
      simp
    · rw [hfp] at hE
      injection hE with hE1 hE2
      injection hE2 with hE2 hE3
      subst hE1 hE2
      simp [isWarn, isRawMsg, List.filter]
  simp only [hfp]
  obtain ⟨⟨sU, evsU, u, bU⟩, hup⟩ :
      ∃ r, (if FIRST_PARAM_INDEX + 12 < fields.length then
          prepareUserData cfg sF acFlags0
            (getField fields (FIRST_PARAM_INDEX + 12))
            (lineFrom fields (FIRST_PARAM_INDEX + 12))
        else (sF, [], .ptr 0, true)) = r := ⟨_, rfl⟩
  have hU : sU.warningCount = sF.warningCount + (evsU.filter isWarn).length ∧
      evsU.filter isRawMsg = [] := by
    by_cases hc : FIRST_PARAM_INDEX + 12 < fields.length
    · rw [if_pos hc] at hup
      rcases prepare_cases cfg sF acFlags0
          (getField fields (FIRST_PARAM_INDEX + 12))
          (lineFrom fields (FIRST_PARAM_INDEX + 12)) with ⟨hA, hB⟩ | hE
      · rw [hup] at hA hB
        simp only at hA hB
        subst hA hB
        simp
      · rw [hup] at hE
        injection hE with hE1 hE2
        injection hE2 with hE2 hE3
        subst hE1 hE2
        simp [isWarn, isRawMsg, List.filter]
    · rw [if_neg hc] at hup
      injection hup with hE1 hE2
      injection hE2 with hE2 hE3
      subst hE1 hE2
      simp
  simp only [hup]
  obtain ⟨⟨sW, evsW⟩, hw⟩ :
      ∃ r, (if sU.allocateForBufferImageWarningIssued = false then
          match warn cfg sU .allocateForBufferImageInexact with
          | (s1, evs) =>
            ({ s1 with allocateForBufferImageWarningIssued := true }, evs)
        else (sU, [])) = r := ⟨_, rfl⟩
  have hW : sW.warningCount = sU.warningCount + (evsW.filter isWarn).length ∧
      evsW.filter isRawMsg = [] := by
    by_cases hflag : sU.allocateForBufferImageWarningIssued = false
    · rw [if_pos hflag, warn_eq] at hw
      injection hw with hE1 hE2
      subst hE1 hE2
      simp [isWarn, isRawMsg, List.filter]
    · rw [if_neg hflag] at hw
      injection hw with hE1 hE2
      subst hE1 hE2
      simp
  simp only [hw]
  obtain ⟨⟨sA, evsA⟩, haa⟩ :
      ∃ r, addAllocation cfg
        { sW with stats := sW.stats.registerCreateAllocation }
        origPtr env.success
        { allocationFlags :=
            if requiresDedicated ∨ prefersDedicated then
              acFlags0 ||| VMA_ALLOCATION_CREATE_DEDICATED_MEMORY_BIT
            else acFlags0
          allocation := if env.success then env.liveAllocation else 0
          buffer := 0
          image := 0 } = r := ⟨_, rfl⟩
  have hA : sA.warningCount = sW.warningCount + (evsA.filter isWarn).length ∧
      evsA.filter isRawMsg = [] := by
    have h := wfs_addAllocation cfg
      { sW with stats := sW.stats.registerCreateAllocation }
      origPtr env.success
      { allocationFlags :=
          if requiresDedicated ∨ prefersDedicated then
            acFlags0 ||| VMA_ALLOCATION_CREATE_DEDICATED_MEMORY_BIT
          else acFlags0
        allocation := if env.success then env.liveAllocation else 0
        buffer := 0
        image := 0 }
    rw [haa] at h
    exact h
  simp only [haa]
  refine ⟨?_, ?_⟩
  · simp [List.filter_append, hA.1, hF.1, hU.1, hW.1, hwc, isWarn, List.filter]
    omega
  · simp [List.filter_append, hA.2, hF.2, hU.2, hW.2, isRawMsg, List.filter]

end VmaReplay

namespace VmaReplay

theorem wfs_executeDestroyBuffer (cfg : Config) (env : Env) (s : PlayerState)
    (fields : List String) :
    WarnFunnelStrict s (executeDestroyBuffer cfg env s fields) := by
  unfold WarnFunnelStrict
  simp only [executeDestroyBuffer, destroyAllocation,
    validateFunctionParameterCount, warn_eq]
  repeat' split
  all_goals simp [isWarn, isRawMsg, List.filter]

theorem wfs_executeDestroyImage (cfg : Config) (env : Env) (s : PlayerState)
    (fields : List String) :
    WarnFunnelStrict s (executeDestroyImage cfg env s fields) := by
  unfold WarnFunnelStrict
  simp only [executeDestroyImage, destroyAllocation,
    validateFunctionParameterCount, warn_eq]
  repeat' split
  all_goals simp [isWarn, isRawMsg, List.filter]

theorem wfs_executeFreeMemory (cfg : Config) (env : Env) (s : PlayerState)
    (fields : List String) :
    WarnFunnelStrict s (executeFreeMemory cfg env s fields) := by
  unfold WarnFunnelStrict
  simp only [executeFreeMemory, destroyAllocation,
    validateFunctionParameterCount, warn_eq]
  repeat' split
  all_goals simp [isWarn, isRawMsg, List.filter]

theorem wfs_processHeader (cfg : Config) (s : PlayerState)
    (fields : List String) :
    WarnFunnelStrict s (processHeader cfg s fields) := by
  unfold WarnFunnelStrict
  simp only [processHeader, warn_eq]
  repeat' split
  all_goals simp [isWarn, isRawMsg, List.filter]

theorem wf_validateArm (cfg : Config) (s : PlayerState) (n expected : Nat)
    (b : Bool) :
    WarnFunnel s (match validateFunctionParameterCount cfg s n expected b with
      | (s, evs, _) => (s, evs)) := by
  rcases validate_cases cfg s n expected b with h | h <;>
    simp [h, WarnFunnel, isWarn, isRawMsg, List.filter]

set_option maxHeartbeats 1000000 in
/-- The whole operation dispatch satisfies the funnel: every handler is
strict except the map handler. -/
theorem wf_dispatchFunction (cfg : Config) (env : Env) (s : PlayerState)
    (fields : List String) :
    WarnFunnel s (dispatchFunction cfg env s fields) := by
  unfold dispatchFunction
  by_cases h1 : getField fields 3 = "vmaCreateAllocator"
  case pos =>
    rw [if_pos h1]
    exact wf_validateArm cfg s fields.length 0 false
  rw [if_neg h1]
  by_cases h2 : getField fields 3 = "vmaDestroyAllocator"
  case pos =>
    rw [if_pos h2]
    exact wf_validateArm cfg s fields.length 0 false
  rw [if_neg h2]
  by_cases h3 : getField fields 3 = "vmaCreatePool"
  case pos =>
    rw [if_pos h3]
    exact (wfs_executeCreatePool cfg env s fields).toFunnel
  rw [if_neg h3]
  by_cases h4 : getField fields 3 = "vmaDestroyPool"
  case pos =>
    rw [if_pos h4]
    exact (wfs_executeDestroyPool cfg env s fields).toFunnel
  rw [if_neg h4]
  by_cases h5 : getField fields 3 = "vmaSetAllocationUserData"
  case pos =>
    rw [if_pos h5]
    exact (wfs_executeSetAllocationUserData cfg env s fields).toFunnel
  rw [if_neg h5]
  by_cases h6 : getField fields 3 = "vmaCreateBuffer"
  case pos =>
    rw [if_pos h6]
    exact (wfs_executeCreateBuffer cfg env s fields).toFunnel
  rw [if_neg h6]
  by_cases h7 : getField fields 3 = "vmaDestroyBuffer"
  case pos =>
    rw [if_pos h7]
    exact (wfs_executeDestroyBuffer cfg env s fields).toFunnel
  rw [if_neg h7]
  by_cases h8 : getField fields 3 = "vmaCreateImage"
  case pos =>
    rw [if_pos h8]
    exact (wfs_executeCreateImage cfg env s fields).toFunnel
  rw [if_neg h8]
  by_cases h9 : getField fields 3 = "vmaDestroyImage"
  case pos =>
    rw [if_pos h9]
    exact (wfs_executeDestroyImage cfg env s fields).toFunnel
  rw [if_neg h9]
  by_cases h10 : getField fields 3 = "vmaFreeMemory"
  case pos =>
    rw [if_pos h10]
    exact (wfs_executeFreeMemory cfg env s fields).toFunnel
  rw [if_neg h10]
  by_cases h11 : getField fields 3 = "vmaCreateLostAllocation"
  case pos =>
    rw [if_pos h11]
    exact (wfs_executeCreateLostAllocation cfg env s fields).toFunnel
  rw [if_neg h11]
  by_cases h12 : getField fields 3 = "vmaAllocateMemory"
  case pos =>
    rw [if_pos h12]
    exact (wfs_executeAllocateMemory cfg env s fields).toFunnel
  rw [if_neg h12]
  by_cases h13 : getField fields 3 = "vmaAllocateMemoryForBuffer"
  case pos =>
    rw [if_pos h13]
    exact (wfs_executeAllocateMemoryForBufferOrImage cfg env s fields .buffer).toFunnel
  rw [if_neg h13]
  by_cases h14 : getField fields 3 = "vmaAllocateMemoryForImage"
  case pos =>
    rw [if_pos h14]
    exact (wfs_executeAllocateMemoryForBufferOrImage cfg env s fields .image).toFunnel
  rw [if_neg h14]
  by_cases h15 : getField fields 3 = "vmaMapMemory"
  case pos =>
    rw [if_pos h15]
    exact wf_executeMapMemory cfg env s fields
  rw [if_neg h15]
  by_cases h16 : getField fields 3 = "vmaUnmapMemory"
  case pos =>
    rw [if_pos h16]
    exact (wfs_executeUnmapMemory cfg env s fields).toFunnel
  rw [if_neg h16]
  by_cases h17 : getField fields 3 = "vmaFlushAllocation"
  case pos =>
    rw [if_pos h17]
    exact (wfs_executeFlushAllocation cfg env s fields).toFunnel
  rw [if_neg h17]
  by_cases h18 : getField fields 3 = "vmaInvalidateAllocation"
  case pos =>
    rw [if_pos h18]
    exact (wfs_executeInvalidateAllocation cfg env s fields).toFunnel
  rw [if_neg h18]
  by_cases h19 : getField fields 3 = "vmaTouchAllocation"
  case pos =>
    rw [if_pos h19]
    exact (wfs_executeTouchAllocation cfg env s fields).toFunnel
  rw [if_neg h19]
  by_cases h20 : getField fields 3 = "vmaGetAllocationInfo"
  case pos =>
    rw [if_pos h20]
    exact (wfs_executeGetAllocationInfo cfg env s fields).toFunnel
  rw [if_neg h20]
  by_cases h21 : getField fields 3 = "vmaMakePoolAllocationsLost"
  case pos =>
    rw [if_pos h21]
    exact (wfs_executeMakePoolAllocationsLost cfg env s fields).toFunnel
  rw [if_neg h21]
  simp [WarnFunnel, warn_eq, isWarn, isRawMsg, List.filter]

/-- `ExecuteLine` satisfies the funnel: header and dispatch compose. -/
theorem wf_executeLine (cfg : Config) (env : Env) (s : PlayerState)
    (fields : List String) :
    WarnFunnel s (executeLine cfg env s fields) := by
  unfold executeLine
  split
  case isTrue h =>
    obtain ⟨⟨s1, evs1⟩, hh⟩ : ∃ r, processHeader cfg s fields = r := ⟨_, rfl⟩
    have h1 := wfs_processHeader cfg s fields
    rw [hh] at h1
    obtain ⟨⟨s2, evs2⟩, hd⟩ :
        ∃ r, dispatchFunction cfg env s1 fields = r := ⟨_, rfl⟩
    have h2 := wf_dispatchFunction cfg env s1 fields
    rw [hd] at h2
    simp only [hh, hd]
    unfold WarnFunnelStrict at h1
    unfold WarnFunnel at h2 ⊢
    refine ⟨?_, ?_⟩
    · simp only at h1 h2 ⊢
      simp [List.filter_append, h2.1, h1.1]
      omega
    · intro e he
      simp only [List.filter_append, List.mem_append] at he
      rcases he with he | he
      · rw [h1.2] at he
        simp at he
      · exact h2.2 e he
  case isFalse h =>
    simp [warn_eq, WarnFunnel, isWarn, isRawMsg, List.filter]

end VmaReplay

namespace VmaReplay

/-- C8, counterexample.  A live `vmaMapMemory` failure during replay is
printed directly (`printf`), bypassing `IssueWarning`: the message is
emitted while the warning counter stays unchanged. -/
theorem c8_counterexample :
    Event.rawMsg WarnKind.mapFailed ∈
      (executeLine (Config.mk .default true) (Env.mk false 1 2 3 4)
        { initialState with
            allocations := HMap.empty.insert 5 (Allocation.mk 0 7 0 0) }
        ["0", "0.0", "0", "vmaMapMemory", "5"]).2 ∧
    (executeLine (Config.mk .default true) (Env.mk false 1 2 3 4)
        { initialState with
            allocations := HMap.empty.insert 5 (Allocation.mk 0 7 0 0) }
        ["0", "0.0", "0", "vmaMapMemory", "5"]).1.warningCount =
      ({ initialState with
          allocations := HMap.empty.insert 5 (Allocation.mk 0 7 0 0) } :
        PlayerState).warningCount := by
  refine ⟨?_, ?_⟩ <;> decide

/-- C8, amended: processing any record never aborts and funnels every
recoverable or divergence condition through the warning sink — the final
warning counter is the initial one plus exactly the number of warning
events emitted — except that a live `vmaMapMemory` failure is printed
directly and bypasses the counter: the only event that avoids the
warning path is that map-failure message. -/
theorem c8_warning_funnel (cfg : Config) (env : Env) (s : PlayerState)
    (fields : List String) :
    (executeLine cfg env s fields).1.warningCount =
      s.warningCount +
        ((executeLine cfg env s fields).2.filter isWarn).length ∧
    ∀ e ∈ (executeLine cfg env s fields).2.filter isRawMsg,
      e = Event.rawMsg WarnKind.mapFailed :=
  wf_executeLine cfg env s fields

end VmaReplay
